import Mathlib

set_option maxRecDepth 8000

/-!
Verification of a Telegram webhook bot server.

The development shallowly embeds the server's core components:
* the TTL key/value cache (`cache-manager`: `set` / `get` / `has` with lazy
  eviction of expired entries),
* the per-chat throttle (`WebhookHandler.isThrottled`),
* the resilient outbound gateway (`TelegramAPI.makeRequest`: retry loop,
  exponential backoff, rate-limit handling, circuit breaker),
* the update dispatcher (`WebhookHandler.handleWebhook` and its handlers).

Timestamps are naturals (milliseconds, as returned by `Date.now()`); each
function that reads the clock takes the current time as an argument.
JavaScript exceptions are modelled with `Except Unit`.
-/

/-- One stored cache entry: `{ value, expiry }` where `expiry` is the absolute
expiration timestamp in milliseconds (`Date.now() + ttlSeconds * 1000`). -/
structure CacheItem (α : Type) where
  value : α
  expiry : Nat
deriving DecidableEq, Repr

/-- `Map.get`: look a key up in an association list (the embedding of the
JavaScript `Map` backing the cache). -/
def mapGet {β : Type} (c : List (String × β)) (k : String) : Option β :=
  (c.find? (fun p => decide (p.1 = k))).map Prod.snd

/-- `Map.set`: overwrite the entry for `k` in place, or append a fresh entry
when the key is absent. -/
def mapSet {β : Type} : List (String × β) → String → β → List (String × β)
  | [], k, v => [(k, v)]
  | p :: t, k, v => if p.1 = k then (k, v) :: t else p :: mapSet t k v

/-- `Map.delete`: remove the entry for `k`. -/
def mapDelete {β : Type} (c : List (String × β)) (k : String) : List (String × β) :=
  c.filter (fun p => decide (p.1 ≠ k))

/-- `CacheManager.set(key, value, ttlSeconds)` (source default `ttlSeconds =
3600`, passed explicitly here): stores the value with absolute expiry
`now + ttlSeconds * 1000`. -/
def cacheSet {α : Type} (c : List (String × CacheItem α)) (key : String) (v : α)
    (ttlSeconds now : Nat) : List (String × CacheItem α) :=
  mapSet c key { value := v, expiry := now + ttlSeconds * 1000 }

/-- `CacheManager.get(key)`: returns the stored value, or `none` when the key
is absent or the entry has expired (`Date.now() > item.expiry`); an expired
entry is deleted as a side effect, so the updated store is returned too. -/
def cacheGet {α : Type} (c : List (String × CacheItem α)) (key : String) (now : Nat) :
    Option α × List (String × CacheItem α) :=
  match mapGet c key with
  | none => (none, c)
  | some item =>
    if item.expiry < now then (none, mapDelete c key) else (some item.value, c)

/-- `CacheManager.has(key)`: mirrors `get` without returning the value,
including the eviction side effect. -/
def cacheHas {α : Type} (c : List (String × CacheItem α)) (key : String) (now : Nat) :
    Bool × List (String × CacheItem α) :=
  match mapGet c key with
  | none => (false, c)
  | some item =>
    if item.expiry < now then (false, mapDelete c key) else (true, c)

/-- Cache values as stored by this server: numeric counters / timestamps, or
strings (the ISO `stats:last_activity` stamp). -/
inductive CVal where
  | nat (n : Nat)
  | str (s : String)
deriving DecidableEq, Repr

/-- The server's cache: string keys to `CVal` entries with expiry. -/
abbrev CacheV := List (String × CacheItem CVal)

/-- `get(key) || 0` for the numeric counters the code stores at the throttle
and stats keys: an absent (or non-numeric) value reads as `0`. -/
def cvalToCount : Option CVal → Nat
  | some (.nat n) => n
  | _ => 0

/-- The throttle key `` `throttle:${chatId}` ``. -/
def throttleKey (chatId : Nat) : String := "throttle:" ++ toString chatId

/-- `WebhookHandler.isThrottled(chatId)`: reads the per-chat counter
(`get(key) || 0`); at `count >= 10` the update is throttled and nothing is
written; otherwise the counter is re-stored as `count + 1` with a fresh
60-second TTL. Returns the flag and the updated cache. -/
def isThrottled (c : CacheV) (chatId : Nat) (now : Nat) : Bool × CacheV :=
  let key := throttleKey chatId
  match cacheGet c key now with
  | (got, c1) =>
    let count := cvalToCount got
    if 10 ≤ count then (true, c1)
    else (false, cacheSet c1 key (.nat (count + 1)) 60 now)

/-- Drives `isThrottled` over a list of arrival times for a fixed chat,
collecting the per-update throttle flags and the final cache. -/
def runThrottle (chatId : Nat) : CacheV → List Nat → List Bool × CacheV
  | c, [] => ([], c)
  | c, t :: ts =>
    match isThrottled c chatId t with
    | (b, c1) =>
      match runThrottle chatId c1 ts with
      | (bs, c2) => (b :: bs, c2)

theorem mapGet_mapSet_self {β : Type} (c : List (String × β)) (k : String) (v : β) :
    mapGet (mapSet c k v) k = some v := by
  induction c with
  | nil => simp [mapGet, mapSet, List.find?]
  | cons p t ih =>
    by_cases hp : p.1 = k
    · simp [mapSet, hp, mapGet, List.find?]
    · simpa [mapSet, hp, mapGet, List.find?] using ih

theorem mapGet_mapSet_ne {β : Type} (c : List (String × β)) (k k0 : String) (v : β)
    (h : k ≠ k0) : mapGet (mapSet c k0 v) k = mapGet c k := by
  induction c with
  | nil => simp [mapGet, mapSet, List.find?, Ne.symm h]
  | cons p t ih =>
    by_cases hp : p.1 = k0
    · simp [mapSet, hp, mapGet, List.find?, Ne.symm h]
    · by_cases hk : p.1 = k
      · simp [mapSet, hp, mapGet, List.find?, hk, h]
      · simpa [mapSet, hp, mapGet, List.find?, hk] using ih

theorem mapGet_mapDelete_self {β : Type} (c : List (String × β)) (k : String) :
    mapGet (mapDelete c k) k = none := by
  induction c with
  | nil => simp [mapGet, mapDelete]
  | cons p t ih =>
    by_cases hp : p.1 = k
    · simpa [mapDelete, hp, List.filter] using ih
    · simp [mapDelete, hp, List.filter, mapGet, List.find?, ih]

theorem mapGet_mapDelete_ne {β : Type} (c : List (String × β)) (k k0 : String)
    (h : k ≠ k0) : mapGet (mapDelete c k0) k = mapGet c k := by
  induction c with
  | nil => simp [mapGet, mapDelete]
  | cons p t ih =>
    by_cases hp : p.1 = k0
    · simpa [mapDelete, hp, List.filter, mapGet, List.find?, Ne.symm h] using ih
    · by_cases hk : p.1 = k
      · simp [mapDelete, hp, List.filter, mapGet, List.find?, hk, h]
      · simpa [mapDelete, hp, List.filter, mapGet, List.find?, hk] using ih

/-- Claim C9: for every key, value and positive ttl, a `set` followed by an
immediate `get` returns the value; at any time strictly after the expiry
instant `now + ttl*1000`, `get` is absent, `has` is false, and both evict the
expired entry from the store as a side effect of the read. -/
theorem cache_set_get_ttl_roundtrip (α : Type) (c : List (String × CacheItem α))
    (k : String) (v : α) (ttl now t : Nat) (_httl : 0 < ttl) :
    (cacheGet (cacheSet c k v ttl now) k now).1 = some v ∧
    (now + ttl * 1000 < t →
      (cacheGet (cacheSet c k v ttl now) k t).1 = none ∧
      mapGet (cacheGet (cacheSet c k v ttl now) k t).2 k = none ∧
      (cacheHas (cacheSet c k v ttl now) k t).1 = false ∧
      mapGet (cacheHas (cacheSet c k v ttl now) k t).2 k = none) := by
  constructor
  · simp [cacheGet, cacheSet, mapGet_mapSet_self]
  · intro ht
    refine ⟨?_, ?_, ?_, ?_⟩ <;>
      simp [cacheGet, cacheHas, cacheSet, mapGet_mapSet_self, ht, mapGet_mapDelete_self]

theorem cache_set_get_ttl_roundtrip_witness :
    (cacheGet (cacheSet ([] : List (String × CacheItem Nat)) "k" 7 1 0) "k" 0).1 = some 7 ∧
    (cacheGet (cacheSet ([] : List (String × CacheItem Nat)) "k" 7 1 0) "k" 1001).1 = none ∧
    (cacheHas (cacheSet ([] : List (String × CacheItem Nat)) "k" 7 1 0) "k" 1001).1 = false := by
  have h := cache_set_get_ttl_roundtrip Nat [] "k" 7 1 0 1001 (by decide)
  exact ⟨h.1, (h.2 (by decide)).1, (h.2 (by decide)).2.2.1⟩

/-- A sequence of arrival times that is temporally ordered and in which each
time is at most 60 s after its predecessor (`s` is the instant of the
previous increment). -/
inductive ChainedWithin : Nat → List Nat → Prop
  | nil (s : Nat) : ChainedWithin s []
  | cons (s t : Nat) (ts : List Nat) (h1 : s ≤ t) (h2 : t ≤ s + 60000)
      (h3 : ChainedWithin t ts) : ChainedWithin s (t :: ts)

theorem chainedWithin_of_sorted (s : Nat) :
    ∀ ts : List Nat, List.Chain (· ≤ ·) s ts → (∀ t ∈ ts, t ≤ s + 60000) →
      ChainedWithin s ts
  | [], _, _ => .nil s
  | t :: ts, h, hw => by
    cases h with
    | cons h1 h2 =>
      exact .cons _ _ _ h1 (hw t (by simp))
        (chainedWithin_of_sorted t ts h2
          (fun u hu => le_trans (hw u (by simp [hu])) (by omega)))

theorem isThrottled_fresh (c : CacheV) (cid now : Nat)
    (h : mapGet c (throttleKey cid) = none) :
    isThrottled c cid now =
      (false, cacheSet c (throttleKey cid) (.nat 1) 60 now) := by
  simp [isThrottled, cacheGet, h, cvalToCount]

theorem isThrottled_live (c : CacheV) (cid now n e : Nat)
    (h : mapGet c (throttleKey cid) = some { value := .nat n, expiry := e })
    (hle : now ≤ e) (hn : n < 10) :
    isThrottled c cid now =
      (false, cacheSet c (throttleKey cid) (.nat (n + 1)) 60 now) := by
  simp [isThrottled, cacheGet, h, cvalToCount, Nat.not_lt.2 hle, Nat.not_le.2 hn]

theorem isThrottled_full (c : CacheV) (cid now n e : Nat)
    (h : mapGet c (throttleKey cid) = some { value := .nat n, expiry := e })
    (hle : now ≤ e) (hn : 10 ≤ n) :
    isThrottled c cid now = (true, c) := by
  simp [isThrottled, cacheGet, h, cvalToCount, Nat.not_lt.2 hle, hn]

theorem isThrottled_expired (c : CacheV) (cid now : Nat) (item : CacheItem CVal)
    (h : mapGet c (throttleKey cid) = some item) (hlt : item.expiry < now) :
    isThrottled c cid now =
      (false, cacheSet (mapDelete c (throttleKey cid)) (throttleKey cid)
        (.nat 1) 60 now) := by
  simp [isThrottled, cacheGet, h, cvalToCount, hlt]

theorem runThrottle_chained (cid : Nat) :
    ∀ (ts : List Nat) (c : CacheV) (n s : Nat),
      mapGet c (throttleKey cid) = some { value := .nat n, expiry := s + 60000 } →
      ChainedWithin s ts → n + ts.length ≤ 10 →
      (runThrottle cid c ts).1 = List.replicate ts.length false ∧
      ∃ e, s ≤ e ∧ (∀ u ∈ ts, u ≤ e) ∧
        mapGet (runThrottle cid c ts).2 (throttleKey cid) =
          some { value := .nat (n + ts.length), expiry := e + 60000 }
  | [], c, n, s, hm, _, _ => by
    refine ⟨by simp [runThrottle], s, le_refl s, by simp, ?_⟩
    simpa [runThrottle] using hm
  | t :: ts, c, n, s, hm, hch, hlen => by
    cases hch with
    | cons _ _ _ h1 h2 h3 =>
      have hn : n < 10 := by simp at hlen; omega
      have hstep := isThrottled_live c cid t n (s + 60000) hm (by omega) hn
      have hm2 : mapGet (cacheSet c (throttleKey cid) (.nat (n + 1)) 60 t)
          (throttleKey cid) = some { value := .nat (n + 1), expiry := t + 60000 } := by
        simp [cacheSet, mapGet_mapSet_self]
      have ih := runThrottle_chained cid ts
        (cacheSet c (throttleKey cid) (.nat (n + 1)) 60 t) (n + 1) t hm2 h3
        (by simp at hlen ⊢; omega)
      obtain ⟨hflags, e, hse, hall, hentry⟩ := ih
      refine ⟨?_, e, le_trans h1 hse, ?_, ?_⟩
      · simp [runThrottle, hstep, hflags, List.replicate_succ]
      · intro u hu
        rcases List.mem_cons.1 hu with rfl | hu
        · exact hse
        · exact hall u hu
      · simp only [runThrottle, hstep]
        have : n + 1 + ts.length = n + (ts.length + 1) := by omega
        rw [this] at hentry
        simpa [runThrottle] using hentry

/-- Claim C3 (amended): for every target id, 10 updates arriving within one
60-second window (temporally ordered, all within 60 s of the first) are not
throttled; an 11th update in the same window is throttled and leaves both the
counter and the cache unchanged; and a new update arriving more than 60
seconds after the LAST increment is not throttled — each increment re-stores
the entry with a fresh 60-second TTL, so the window extends from the most
recent increment rather than staying fixed at the first. -/
theorem throttle_window (cid : Nat) (c : CacheV) (t1 : Nat) (rest : List Nat)
    (t11 : Nat)
    (hfresh : mapGet c (throttleKey cid) = none)
    (hlen : rest.length = 9)
    (hsorted : List.Chain (· ≤ ·) t1 rest)
    (hwin : ∀ u ∈ rest, u ≤ t1 + 60000)
    (h11 : t11 ≤ t1 + 60000) :
    (runThrottle cid c (t1 :: rest)).1 = List.replicate 10 false ∧
    (isThrottled (runThrottle cid c (t1 :: rest)).2 cid t11).1 = true ∧
    (isThrottled (runThrottle cid c (t1 :: rest)).2 cid t11).2 =
      (runThrottle cid c (t1 :: rest)).2 ∧
    ∃ e, t1 ≤ e ∧ (∀ u ∈ rest, u ≤ e) ∧
      ∀ t2, e + 60000 < t2 →
        (isThrottled (runThrottle cid c (t1 :: rest)).2 cid t2).1 = false := by
  have hch := chainedWithin_of_sorted t1 rest hsorted hwin
  have hstep := isThrottled_fresh c cid t1 hfresh
  have hm1 : mapGet (cacheSet c (throttleKey cid) (.nat 1) 60 t1) (throttleKey cid)
      = some { value := .nat 1, expiry := t1 + 60000 } := by
    simp [cacheSet, mapGet_mapSet_self]
  have hrun := runThrottle_chained cid rest
    (cacheSet c (throttleKey cid) (.nat 1) 60 t1) 1 t1 hm1 hch (by omega)
  obtain ⟨hflags, e, hte, hall, hentry⟩ := hrun
  rw [hlen] at hentry
  norm_num at hentry
  have hsplit : runThrottle cid c (t1 :: rest) =
      (false :: (runThrottle cid (cacheSet c (throttleKey cid) (.nat 1) 60 t1) rest).1,
       (runThrottle cid (cacheSet c (throttleKey cid) (.nat 1) 60 t1) rest).2) := by
    simp [runThrottle, hstep]
  have h11th := isThrottled_full
    (runThrottle cid (cacheSet c (throttleKey cid) (.nat 1) 60 t1) rest).2
    cid t11 10 (e + 60000) hentry (by omega) (by omega)
  refine ⟨?_, ?_, ?_, e, hte, hall, ?_⟩
  · rw [hsplit]; simp [hflags, hlen, List.replicate_succ]
  · rw [hsplit]; simpa using congrArg Prod.fst h11th
  · rw [hsplit]; simpa using congrArg Prod.snd h11th
  · intro t2 ht2
    have hexp := isThrottled_expired
      (runThrottle cid (cacheSet c (throttleKey cid) (.nat 1) 60 t1) rest).2
      cid t2 { value := .nat 10, expiry := e + 60000 } hentry (by simpa using ht2)
    rw [hsplit]
    simpa using congrArg Prod.fst hexp

/-- Claim C3, counterexample to the fixed-window part: with increments at
times 0 ms and then nine at 30000 ms, an update at 70000 ms — more than 60
seconds after the FIRST increment — is still throttled, because the tenth
increment refreshed the entry's TTL to expire at 90000 ms. -/
theorem throttle_first_increment_counterexample :
    (runThrottle 42 ([] : CacheV) (0 :: List.replicate 9 30000)).1 =
      List.replicate 10 false ∧
    60000 < 70000 ∧
    (isThrottled (runThrottle 42 ([] : CacheV) (0 :: List.replicate 9 30000)).2
      42 70000).1 = true := by
  decide

theorem throttle_window_witness :
    (runThrottle 42 ([] : CacheV) (0 :: List.replicate 9 0)).1 =
      List.replicate 10 false ∧
    (isThrottled (runThrottle 42 ([] : CacheV) (0 :: List.replicate 9 0)).2
      42 60000).1 = true := by
  have h := throttle_window 42 [] 0 (List.replicate 9 0) 60000 rfl (by simp)
    (List.chain_replicate_of_rel 9 (le_refl 0)) (by simp) (by omega)
  exact ⟨h.1, h.2.1⟩

/-- Accumulate decimal digits into a number (`Number.parseInt` on the digit
group captured by the regex). -/
def digitsToNat (ds : List Char) : Nat :=
  ds.foldl (fun n c => n * 10 + (c.toNat - 48)) 0

/-- Scan of the (lower-cased) description for the pattern
`retry after (\d+)`: at each position where the literal text `retry after `
is followed by at least one digit, the digit group is the match; otherwise
scanning continues, and `none` means no match anywhere. -/
def findRetryAfter : List Char → Option Nat
  | [] => none
  | c :: rest =>
    if List.isPrefixOf "retry after ".toList (c :: rest) then
      let ds := List.takeWhile Char.isDigit (List.drop 12 (c :: rest))
      if ds.isEmpty then findRetryAfter rest else some (digitsToNat ds)
    else findRetryAfter rest

/-- `TelegramAPI.extractRetryAfter(description)`: the case-insensitive regex
`/retry after (\d+)/i`, defaulting to 1 second when absent or unparsable. -/
def extractRetryAfter (description : String) : Nat :=
  match findRetryAfter (description.toList.map Char.toLower) with
  | some n => n
  | none => 1

/-- Circuit-breaker states `"closed" | "open" | "half-open"`. -/
inductive BState where
  | closed
  | opened
  | halfOpen
deriving DecidableEq, Repr

/-- The `circuitBreaker` record of a `TelegramAPI` instance. -/
structure CircuitBreaker where
  failures : Nat
  lastFailure : Nat
  state : BState
deriving DecidableEq, Repr

/-- The breaker as initialized in the `TelegramAPI` constructor. -/
def initialBreaker : CircuitBreaker :=
  { failures := 0, lastFailure := 0, state := .closed }

/-- The `APIResult` contract of every gateway call. -/
structure APIResult where
  success : Bool
  data : Option String
  error : Option String
  retryAfter : Option Nat
deriving DecidableEq, Repr

/-- One sleep performed during a call: the rate-limit sleep
(`retryAfter * 1000` ms) or the exponential-backoff sleep. -/
inductive SleepEvent where
  | rateLimit (ms : Nat)
  | backoff (ms : Nat)
deriving DecidableEq, Repr

/-- What one network attempt observes: a successful response (`data.ok`),
an upstream error envelope (`ok:false` with `error_code`/`description`),
or a thrown transport error (message, `error.name`, `error.code`). -/
inductive AttemptOutcome where
  | ok (data : String)
  | apiError (errorCode : Option Nat) (description : Option String)
  | exn (message : String) (ename : String) (ecode : Option String)
deriving DecidableEq, Repr

/-- The observable outcome of one `makeRequest` call: the returned
`APIResult`, the breaker state after the call, the number of network
attempts issued, and the sleeps performed in order. -/
structure CallResult where
  result : APIResult
  breaker : CircuitBreaker
  attempts : Nat
  sleeps : List SleepEvent
deriving DecidableEq, Repr

/-- `const maxRetries = 3`. -/
def maxRetries : Nat := 3

/-- The retry loop of `TelegramAPI.makeRequest` (`for attempt = 1 to
maxRetries`). `outcomes a` is what the network attempt number `a` observes;
`endTime` is `Date.now()` at the moment the exhausted loop records the
failure. The fuel counts the remaining loop iterations, so it starts at
`maxRetries` with `a = 1`. When the fuel runs out the loop has exhausted
its attempts and the breaker failure update after the loop runs. -/
def attemptLoop (outcomes : Nat → AttemptOutcome) (endTime : Nat) :
    Nat → Nat → CircuitBreaker → String → List SleepEvent → Nat → CallResult
  | 0, _, cb, lastError, sleeps, n =>
    let failures := cb.failures + 1
    { result := { success := false, data := none, error := some lastError,
                  retryAfter := none },
      breaker := { failures := failures, lastFailure := endTime,
                   state := if 5 ≤ failures then .opened else cb.state },
      attempts := n, sleeps := sleeps }
  | fuel + 1, a, cb, _lastError, sleeps, n =>
    match outcomes a with
    | .ok d =>
      { result := { success := true, data := some d, error := none,
                    retryAfter := none },
        breaker := { failures := 0, lastFailure := cb.lastFailure,
                     state := .closed },
        attempts := n + 1, sleeps := sleeps }
    | .apiError errorCode description =>
      let lastError := description.getD "Unknown API error"
      if errorCode = some 429 then
        let retryAfter := extractRetryAfter (description.getD "")
        if a < maxRetries then
          attemptLoop outcomes endTime fuel (a + 1) cb lastError
            (sleeps ++ [.rateLimit (retryAfter * 1000)]) (n + 1)
        else
          { result := { success := false, data := none, error := some lastError,
                        retryAfter := some retryAfter },
            breaker := cb, attempts := n + 1, sleeps := sleeps }
      else
        if a < maxRetries then
          attemptLoop outcomes endTime fuel (a + 1) cb lastError
            (sleeps ++ [.backoff (min (1000 * 2 ^ (a - 1)) 5000)]) (n + 1)
        else
          attemptLoop outcomes endTime fuel (a + 1) cb lastError sleeps (n + 1)
    | .exn message ename ecode =>
      let lastError :=
        if ename = "AbortError" then "Request timeout"
        else if ecode = some "ECONNRESET" ∨ ecode = some "ETIMEDOUT" then
          "Connection error"
        else message
      if a < maxRetries then
        attemptLoop outcomes endTime fuel (a + 1) cb lastError
          (sleeps ++ [.backoff (min (1000 * 2 ^ (a - 1)) 5000)]) (n + 1)
      else
        attemptLoop outcomes endTime fuel (a + 1) cb lastError sleeps (n + 1)

/-- `TelegramAPI.makeRequest(method, params)`. `now` is `Date.now()` at the
breaker check; `endTime` is the clock when an exhausted loop would record
its failure. The breaker is interrogated first: in state `open` within 30 s
of the last failure the call fast-fails with no attempt; after 30 s the
state becomes `half-open` and the retry loop runs; otherwise the loop runs
directly. -/
def makeRequest (cb : CircuitBreaker) (now endTime : Nat)
    (outcomes : Nat → AttemptOutcome) : CallResult :=
  if cb.state = .opened then
    if now - cb.lastFailure < 30000 then
      { result := { success := false, data := none,
                    error := some "Circuit breaker is open", retryAfter := none },
        breaker := cb, attempts := 0, sleeps := [] }
    else
      attemptLoop outcomes endTime maxRetries 1
        { failures := cb.failures, lastFailure := cb.lastFailure,
          state := .halfOpen } "" [] 0
  else
    attemptLoop outcomes endTime maxRetries 1 cb "" [] 0

/-- An attempt outcome that is not a success. -/
def isFailOutcome : AttemptOutcome → Bool
  | .ok _ => false
  | .apiError _ _ => true
  | .exn _ _ _ => true

/-- An attempt outcome that is a rate-limit (`error_code 429`) response. -/
def is429 : AttemptOutcome → Bool
  | .apiError ec _ => decide (ec = some 429)
  | _ => false

/-- The breaker invariant: `state = open` implies at least 5 consecutive
failures. -/
def BreakerInv (cb : CircuitBreaker) : Prop :=
  cb.state = BState.opened → 5 ≤ cb.failures

theorem attemptLoop_base (oc : Nat → AttemptOutcome) (e a : Nat)
    (cb : CircuitBreaker) (le : String) (sl : List SleepEvent) (n : Nat) :
    attemptLoop oc e 0 a cb le sl n =
      { result := { success := false, data := none, error := some le,
                    retryAfter := none },
        breaker := { failures := cb.failures + 1, lastFailure := e,
                     state := if 5 ≤ cb.failures + 1 then .opened else cb.state },
        attempts := n, sleeps := sl } := rfl

theorem attemptLoop_step_429 (oc : Nat → AttemptOutcome) (e fuel a : Nat)
    (cb : CircuitBreaker) (le : String) (sl : List SleepEvent) (n : Nat)
    (d : Option String) (h : oc a = .apiError (some 429) d)
    (ha : a < maxRetries) :
    attemptLoop oc e (fuel + 1) a cb le sl n =
      attemptLoop oc e fuel (a + 1) cb (d.getD "Unknown API error")
        (sl ++ [.rateLimit (extractRetryAfter (d.getD "") * 1000)]) (n + 1) := by
  simp [attemptLoop, h, ha]

theorem attemptLoop_429_final (oc : Nat → AttemptOutcome) (e fuel : Nat)
    (cb : CircuitBreaker) (le : String) (sl : List SleepEvent) (n : Nat)
    (d : Option String) (h : oc 3 = .apiError (some 429) d) :
    attemptLoop oc e (fuel + 1) 3 cb le sl n =
      { result := { success := false, data := none,
                    error := some (d.getD "Unknown API error"),
                    retryAfter := some (extractRetryAfter (d.getD "")) },
        breaker := cb, attempts := n + 1, sleeps := sl } := by
  simp [attemptLoop, h, maxRetries]

theorem attemptLoop_step_fail_non429 (oc : Nat → AttemptOutcome) (e fuel a : Nat)
    (cb : CircuitBreaker) (le : String) (sl : List SleepEvent) (n : Nat)
    (hf : isFailOutcome (oc a) = true) (h429 : is429 (oc a) = false)
    (ha : a < maxRetries) :
    ∃ le2, attemptLoop oc e (fuel + 1) a cb le sl n =
      attemptLoop oc e fuel (a + 1) cb le2
        (sl ++ [.backoff (min (1000 * 2 ^ (a - 1)) 5000)]) (n + 1) := by
  cases ho : oc a with
  | ok d => rw [ho] at hf; simp [isFailOutcome] at hf
  | apiError ec d =>
    rw [ho] at h429
    have hec : ¬(ec = some 429) := by simpa [is429] using h429
    exact ⟨d.getD "Unknown API error", by simp [attemptLoop, ho, hec, ha]⟩
  | exn m en ec =>
    refine ⟨if en = "AbortError" then "Request timeout"
      else if ec = some "ECONNRESET" ∨ ec = some "ETIMEDOUT" then
        "Connection error" else m, ?_⟩
    simp [attemptLoop, ho, ha]

theorem attemptLoop_step_fail (oc : Nat → AttemptOutcome) (e fuel a : Nat)
    (cb : CircuitBreaker) (le : String) (sl : List SleepEvent) (n : Nat)
    (hf : isFailOutcome (oc a) = true) (ha : a < maxRetries) :
    ∃ le2 sl2, attemptLoop oc e (fuel + 1) a cb le sl n =
      attemptLoop oc e fuel (a + 1) cb le2 sl2 (n + 1) := by
  by_cases h429 : is429 (oc a) = true
  · cases ho : oc a with
    | ok d => rw [ho] at hf; simp [isFailOutcome] at hf
    | apiError ec d =>
      rw [ho] at h429
      have hec : ec = some 429 := by simpa [is429] using h429
      subst hec
      exact ⟨_, _, attemptLoop_step_429 oc e fuel a cb le sl n d ho ha⟩
    | exn m en ec => rw [ho] at h429; simp [is429] at h429
  · obtain ⟨le2, h⟩ := attemptLoop_step_fail_non429 oc e fuel a cb le sl n hf
      (by simpa using h429) ha
    exact ⟨le2, _, h⟩

theorem attemptLoop_last_fail (oc : Nat → AttemptOutcome) (e fuel : Nat)
    (cb : CircuitBreaker) (le : String) (sl : List SleepEvent) (n : Nat)
    (hf : isFailOutcome (oc 3) = true) (h429 : is429 (oc 3) = false) :
    ∃ le2, attemptLoop oc e (fuel + 1) 3 cb le sl n =
      attemptLoop oc e fuel 4 cb le2 sl (n + 1) := by
  cases ho : oc 3 with
  | ok d => rw [ho] at hf; simp [isFailOutcome] at hf
  | apiError ec d =>
    rw [ho] at h429
    have hec : ¬(ec = some 429) := by simpa [is429] using h429
    exact ⟨d.getD "Unknown API error", by simp [attemptLoop, ho, hec, maxRetries]⟩
  | exn m en ec =>
    refine ⟨if en = "AbortError" then "Request timeout"
      else if ec = some "ECONNRESET" ∨ ec = some "ETIMEDOUT" then
        "Connection error" else m, ?_⟩
    simp [attemptLoop, ho, maxRetries]

theorem attemptLoop_attempts_le (oc : Nat → AttemptOutcome) (e : Nat) :
    ∀ (fuel a : Nat) (cb : CircuitBreaker) (le : String) (sl : List SleepEvent)
      (n : Nat), n ≤ (attemptLoop oc e fuel a cb le sl n).attempts
  | 0, _, _, _, _, _ => Nat.le_refl _
  | fuel + 1, a, cb, le, sl, n => by
    have key : ∀ (cb2 : CircuitBreaker) (le2 : String) (sl2 : List SleepEvent),
        n ≤ (attemptLoop oc e fuel (a + 1) cb2 le2 sl2 (n + 1)).attempts :=
      fun cb2 le2 sl2 => le_trans (Nat.le_succ n)
        (attemptLoop_attempts_le oc e fuel (a + 1) cb2 le2 sl2 (n + 1))
    cases ho : oc a with
    | ok d => simp [attemptLoop, ho]
    | apiError ec d =>
      by_cases hec : ec = some 429
      · by_cases ha : a < maxRetries
        · simpa [attemptLoop, ho, hec, ha] using key _ _ _
        · simp [attemptLoop, ho, hec, ha]
      · by_cases ha : a < maxRetries
        · simpa [attemptLoop, ho, hec, ha] using key _ _ _
        · simpa [attemptLoop, ho, hec, ha] using key _ _ _
    | exn m en ec =>
      by_cases ha : a < maxRetries
      · simpa [attemptLoop, ho, ha] using key _ _ _
      · simpa [attemptLoop, ho, ha] using key _ _ _

theorem attemptLoop_attempts_pos (oc : Nat → AttemptOutcome) (e fuel a : Nat)
    (cb : CircuitBreaker) (le : String) (sl : List SleepEvent) :
    1 ≤ (attemptLoop oc e (fuel + 1) a cb le sl 0).attempts := by
  have key : ∀ (cb2 : CircuitBreaker) (le2 : String) (sl2 : List SleepEvent),
      1 ≤ (attemptLoop oc e fuel (a + 1) cb2 le2 sl2 1).attempts :=
    fun cb2 le2 sl2 => attemptLoop_attempts_le oc e fuel (a + 1) cb2 le2 sl2 1
  cases ho : oc a with
  | ok d => simp [attemptLoop, ho]
  | apiError ec d =>
    by_cases hec : ec = some 429
    · by_cases ha : a < maxRetries
      · simpa [attemptLoop, ho, hec, ha] using key _ _ _
      · simp [attemptLoop, ho, hec, ha]
    · by_cases ha : a < maxRetries
      · simpa [attemptLoop, ho, hec, ha] using key _ _ _
      · simpa [attemptLoop, ho, hec, ha] using key _ _ _
  | exn m en ec =>
    by_cases ha : a < maxRetries
    · simpa [attemptLoop, ho, ha] using key _ _ _
    · simpa [attemptLoop, ho, ha] using key _ _ _

theorem attemptLoop_inv (oc : Nat → AttemptOutcome) (e : Nat) :
    ∀ (fuel a : Nat) (cb : CircuitBreaker) (le : String) (sl : List SleepEvent)
      (n : Nat), cb.state ≠ BState.opened →
      BreakerInv (attemptLoop oc e fuel a cb le sl n).breaker
  | 0, a, cb, le, sl, n, h => by
    unfold BreakerInv
    intro hop
    simp only [attemptLoop] at hop ⊢
    by_cases hge : 5 ≤ cb.failures + 1
    · simpa using hge
    · rw [if_neg hge] at hop; exact absurd hop h
  | fuel + 1, a, cb, le, sl, n, h => by
    have key : ∀ (le2 : String) (sl2 : List SleepEvent),
        BreakerInv (attemptLoop oc e fuel (a + 1) cb le2 sl2 (n + 1)).breaker :=
      fun le2 sl2 => attemptLoop_inv oc e fuel (a + 1) cb le2 sl2 (n + 1) h
    cases ho : oc a with
    | ok d => unfold BreakerInv; intro hop; simp [attemptLoop, ho] at hop
    | apiError ec d =>
      by_cases hec : ec = some 429
      · by_cases ha : a < maxRetries
        · simpa [attemptLoop, ho, hec, ha] using key _ _
        · unfold BreakerInv; intro hop
          simp [attemptLoop, ho, hec, ha] at hop
          exact absurd hop h
      · by_cases ha : a < maxRetries
        · simpa [attemptLoop, ho, hec, ha] using key _ _
        · simpa [attemptLoop, ho, hec, ha] using key _ _
    | exn m en ec =>
      by_cases ha : a < maxRetries
      · simpa [attemptLoop, ho, ha] using key _ _
      · simpa [attemptLoop, ho, ha] using key _ _

theorem attemptLoop_success_reset (oc : Nat → AttemptOutcome) (e : Nat) :
    ∀ (fuel a : Nat) (cb : CircuitBreaker) (le : String) (sl : List SleepEvent)
      (n : Nat), (attemptLoop oc e fuel a cb le sl n).result.success = true →
      (attemptLoop oc e fuel a cb le sl n).breaker.failures = 0 ∧
      (attemptLoop oc e fuel a cb le sl n).breaker.state = BState.closed
  | 0, a, cb, le, sl, n, hs => by simp [attemptLoop] at hs
  | fuel + 1, a, cb, le, sl, n, hs => by
    have key := attemptLoop_success_reset oc e fuel (a + 1)
    cases ho : oc a with
    | ok d => simp [attemptLoop, ho]
    | apiError ec d =>
      rw [show (fuel + 1) = fuel + 1 from rfl] at hs
      by_cases hec : ec = some 429
      · by_cases ha : a < maxRetries
        · simp only [attemptLoop, ho, hec, if_true, ha] at hs ⊢
          exact key _ _ _ _ (by simpa using hs)
        · simp [attemptLoop, ho, hec, ha] at hs
      · by_cases ha : a < maxRetries
        · simp only [attemptLoop, ho, hec, if_false, ha] at hs ⊢
          exact key _ _ _ _ (by simpa using hs)
        · simp only [attemptLoop, ho, hec, if_false, ha] at hs ⊢
          exact key _ _ _ _ (by simpa using hs)
    | exn m en ec =>
      by_cases ha : a < maxRetries
      · simp only [attemptLoop, ho, ha] at hs ⊢
        exact key _ _ _ _ (by simpa using hs)
      · simp only [attemptLoop, ho, ha] at hs ⊢
        exact key _ _ _ _ (by simpa using hs)

theorem makeRequest_not_open (cb : CircuitBreaker) (now e : Nat)
    (oc : Nat → AttemptOutcome) (h : cb.state ≠ BState.opened) :
    makeRequest cb now e oc = attemptLoop oc e maxRetries 1 cb "" [] 0 := by
  simp [makeRequest, h]

theorem makeRequest_open_elapsed (cb : CircuitBreaker) (now e : Nat)
    (oc : Nat → AttemptOutcome) (ho : cb.state = BState.opened)
    (ht : 30000 ≤ now - cb.lastFailure) :
    makeRequest cb now e oc = attemptLoop oc e maxRetries 1
      { failures := cb.failures, lastFailure := cb.lastFailure,
        state := BState.halfOpen } "" [] 0 := by
  simp [makeRequest, ho, Nat.not_lt.2 ht]

theorem makeRequest_fastFail (cb : CircuitBreaker) (now e : Nat)
    (oc : Nat → AttemptOutcome) (ho : cb.state = BState.opened)
    (ht : now - cb.lastFailure < 30000) :
    makeRequest cb now e oc =
      { result := { success := false, data := none,
                    error := some "Circuit breaker is open", retryAfter := none },
        breaker := cb, attempts := 0, sleeps := [] } := by
  simp [makeRequest, ho, ht]

theorem makeRequest_attempts_pos (cb : CircuitBreaker) (now e : Nat)
    (oc : Nat → AttemptOutcome)
    (h : cb.state ≠ BState.opened ∨ 30000 ≤ now - cb.lastFailure) :
    1 ≤ (makeRequest cb now e oc).attempts := by
  by_cases ho : cb.state = BState.opened
  · have ht : 30000 ≤ now - cb.lastFailure := by
      rcases h with h | h
      · exact absurd ho h
      · exact h
    rw [makeRequest_open_elapsed cb now e oc ho ht]
    exact attemptLoop_attempts_pos oc e 2 1 _ "" []
  · rw [makeRequest_not_open cb now e oc ho]
    exact attemptLoop_attempts_pos oc e 2 1 cb "" []

theorem attemptLoop_allFail_core (oc : Nat → AttemptOutcome) (e : Nat)
    (cb : CircuitBreaker) (le : String) (sl : List SleepEvent) (n : Nat)
    (h1 : isFailOutcome (oc 1) = true) (h2 : isFailOutcome (oc 2) = true)
    (h3 : isFailOutcome (oc 3) = true) (n3 : is429 (oc 3) = false) :
    (attemptLoop oc e 3 1 cb le sl n).result.success = false ∧
    (attemptLoop oc e 3 1 cb le sl n).breaker.failures = cb.failures + 1 ∧
    (attemptLoop oc e 3 1 cb le sl n).breaker.lastFailure = e ∧
    (attemptLoop oc e 3 1 cb le sl n).breaker.state =
      (if 5 ≤ cb.failures + 1 then BState.opened else cb.state) ∧
    (attemptLoop oc e 3 1 cb le sl n).attempts = n + 3 := by
  obtain ⟨l1, s1, e1⟩ := attemptLoop_step_fail oc e 2 1 cb le sl n h1 (by decide)
  norm_num at e1
  obtain ⟨l2, s2, e2⟩ := attemptLoop_step_fail oc e 1 2 cb l1 s1 (n + 1) h2 (by decide)
  norm_num at e2
  obtain ⟨l3, e3⟩ := attemptLoop_last_fail oc e 0 cb l2 s2 (n + 2) h3 n3
  norm_num at e3
  rw [e1]
  rw [show n + 1 + 1 = n + 2 from by omega] at e2
  rw [e2, e3, attemptLoop_base]
  exact ⟨rfl, rfl, rfl, rfl, show n + 2 + 1 = n + 3 by omega⟩

/-- Claim C6: the breaker invariant `state = open → consecutiveFailures ≥ 5`
holds of the initial breaker (so by preservation of every state reachable
from it) and is preserved by every `makeRequest` call; and any call whose
returned result is successful leaves the breaker reset to 0 consecutive
failures and state `closed`. -/
theorem breaker_invariant_preserved :
    BreakerInv initialBreaker ∧
    (∀ (cb : CircuitBreaker) (now e : Nat) (oc : Nat → AttemptOutcome),
      BreakerInv cb → BreakerInv (makeRequest cb now e oc).breaker) ∧
    (∀ (cb : CircuitBreaker) (now e : Nat) (oc : Nat → AttemptOutcome),
      (makeRequest cb now e oc).result.success = true →
      (makeRequest cb now e oc).breaker.failures = 0 ∧
      (makeRequest cb now e oc).breaker.state = BState.closed) := by
  refine ⟨?_, ?_, ?_⟩
  · unfold BreakerInv initialBreaker
    intro h
    simp at h
  · intro cb now e oc hinv
    by_cases ho : cb.state = BState.opened
    · by_cases ht : now - cb.lastFailure < 30000
      · rw [makeRequest_fastFail cb now e oc ho ht]
        exact hinv
      · rw [makeRequest_open_elapsed cb now e oc ho (by omega)]
        exact attemptLoop_inv oc e maxRetries 1 _ "" [] 0 (by simp)
    · rw [makeRequest_not_open cb now e oc ho]
      exact attemptLoop_inv oc e maxRetries 1 cb "" [] 0 ho
  · intro cb now e oc hs
    by_cases ho : cb.state = BState.opened
    · by_cases ht : now - cb.lastFailure < 30000
      · rw [makeRequest_fastFail cb now e oc ho ht] at hs
        simp at hs
      · rw [makeRequest_open_elapsed cb now e oc ho (by omega)] at hs ⊢
        exact attemptLoop_success_reset oc e maxRetries 1 _ "" [] 0 hs
    · rw [makeRequest_not_open cb now e oc ho] at hs ⊢
      exact attemptLoop_success_reset oc e maxRetries 1 cb "" [] 0 hs

theorem breaker_invariant_preserved_witness :
    BreakerInv (makeRequest initialBreaker 5 7
      (fun _ => AttemptOutcome.ok "r")).breaker ∧
    (makeRequest initialBreaker 5 7
      (fun _ => AttemptOutcome.ok "r")).breaker.failures = 0 := by
  have h := breaker_invariant_preserved
  exact ⟨h.2.1 initialBreaker 5 7 _ h.1,
    (h.2.2 initialBreaker 5 7 _ (by decide)).1⟩

/-- Claim C5 (amended): with the breaker open and less than 30 s elapsed
since `lastFailure`, `makeRequest` returns immediately with `success=false`
and the error string `"Circuit breaker is open"` — the claim's quoted
message `"circuit breaker open"` does not match the code's actual string —
performing no network attempt, no sleep, and leaving the breaker (hence
`consecutiveFailures`) untouched; with 30 s or more elapsed, the state
becomes half-open and the retry loop proceeds (at least one attempt). -/
theorem breaker_open_fast_fail (cb : CircuitBreaker) (now e : Nat)
    (oc : Nat → AttemptOutcome) (ho : cb.state = BState.opened) :
    (now - cb.lastFailure < 30000 →
      makeRequest cb now e oc =
        { result := { success := false, data := none,
                      error := some "Circuit breaker is open", retryAfter := none },
          breaker := cb, attempts := 0, sleeps := [] }) ∧
    (30000 ≤ now - cb.lastFailure →
      makeRequest cb now e oc =
        attemptLoop oc e maxRetries 1
          { failures := cb.failures, lastFailure := cb.lastFailure,
            state := BState.halfOpen } "" [] 0 ∧
      1 ≤ (makeRequest cb now e oc).attempts) := by
  constructor
  · intro ht
    exact makeRequest_fastFail cb now e oc ho ht
  · intro ht
    exact ⟨makeRequest_open_elapsed cb now e oc ho ht,
      makeRequest_attempts_pos cb now e oc (Or.inr ht)⟩

/-- Claim C5, counterexample to the quoted error string: on the claimed
fast-fail path the returned error is `"Circuit breaker is open"`, which is
not the string `"circuit breaker open"` stated by the claim. -/
theorem breaker_open_message_counterexample :
    (makeRequest { failures := 5, lastFailure := 0, state := BState.opened }
      0 0 (fun _ => AttemptOutcome.ok "x")).result.success = false ∧
    (makeRequest { failures := 5, lastFailure := 0, state := BState.opened }
      0 0 (fun _ => AttemptOutcome.ok "x")).result.error =
        some "Circuit breaker is open" ∧
    (makeRequest { failures := 5, lastFailure := 0, state := BState.opened }
      0 0 (fun _ => AttemptOutcome.ok "x")).result.error ≠
        some "circuit breaker open" := by
  decide

theorem breaker_open_fast_fail_witness :
    makeRequest { failures := 5, lastFailure := 0, state := BState.opened }
      10 0 (fun _ => AttemptOutcome.ok "x") =
      { result := { success := false, data := none,
                    error := some "Circuit breaker is open", retryAfter := none },
        breaker := { failures := 5, lastFailure := 0, state := BState.opened },
        attempts := 0, sleeps := [] } :=
  (breaker_open_fast_fail
    { failures := 5, lastFailure := 0, state := BState.opened }
    10 0 (fun _ => AttemptOutcome.ok "x") rfl).1 (by decide)

/-- Claim C7: a call that proceeds past the breaker and whose three attempts
all fail with non-rate-limited outcomes makes exactly 3 attempts, sleeps
`min(1000 * 2^(attempt-1), 5000)` ms between consecutive attempts — 1000 ms
then 2000 ms — and returns an `APIResult` with `success=false` after the
final attempt. -/
theorem retry_backoff_three_attempts (cb : CircuitBreaker) (now e : Nat)
    (oc : Nat → AttemptOutcome)
    (hp : cb.state ≠ BState.opened ∨ 30000 ≤ now - cb.lastFailure)
    (h1 : isFailOutcome (oc 1) = true) (h2 : isFailOutcome (oc 2) = true)
    (h3 : isFailOutcome (oc 3) = true)
    (n1 : is429 (oc 1) = false) (n2 : is429 (oc 2) = false)
    (n3 : is429 (oc 3) = false) :
    (makeRequest cb now e oc).attempts = 3 ∧
    (makeRequest cb now e oc).sleeps =
      [SleepEvent.backoff 1000, SleepEvent.backoff 2000] ∧
    (makeRequest cb now e oc).result.success = false := by
  have main : ∀ cb2 : CircuitBreaker,
      (attemptLoop oc e 3 1 cb2 "" [] 0).attempts = 3 ∧
      (attemptLoop oc e 3 1 cb2 "" [] 0).sleeps =
        [SleepEvent.backoff 1000, SleepEvent.backoff 2000] ∧
      (attemptLoop oc e 3 1 cb2 "" [] 0).result.success = false := by
    intro cb2
    obtain ⟨l1, e1⟩ := attemptLoop_step_fail_non429 oc e 2 1 cb2 "" [] 0 h1 n1
      (by decide)
    norm_num [Nat.min_def] at e1
    obtain ⟨l2, e2⟩ := attemptLoop_step_fail_non429 oc e 1 2 cb2 l1
      [SleepEvent.backoff 1000] 1 h2 n2 (by decide)
    norm_num [Nat.min_def] at e2
    obtain ⟨l3, e3⟩ := attemptLoop_last_fail oc e 0 cb2 l2
      [SleepEvent.backoff 1000, SleepEvent.backoff 2000] 2 h3 n3
    norm_num at e3
    rw [e1, e2, e3, attemptLoop_base]
    exact ⟨rfl, rfl, rfl⟩
  by_cases ho : cb.state = BState.opened
  · have ht : 30000 ≤ now - cb.lastFailure := by
      rcases hp with h | h
      · exact absurd ho h
      · exact h
    rw [makeRequest_open_elapsed cb now e oc ho ht]
    simp only [maxRetries]
    exact main _
  · rw [makeRequest_not_open cb now e oc ho]
    simp only [maxRetries]
    exact main cb

theorem retry_backoff_three_attempts_witness :
    (makeRequest initialBreaker 0 9
      (fun _ => AttemptOutcome.exn "boom" "Error" none)).attempts = 3 ∧
    (makeRequest initialBreaker 0 9
      (fun _ => AttemptOutcome.exn "boom" "Error" none)).sleeps =
      [SleepEvent.backoff 1000, SleepEvent.backoff 2000] ∧
    (makeRequest initialBreaker 0 9
      (fun _ => AttemptOutcome.exn "boom" "Error" none)).result.success = false :=
  retry_backoff_three_attempts initialBreaker 0 9 _ (Or.inl (by decide))
    (by decide) (by decide) (by decide) (by decide) (by decide) (by decide)

/-- Claim C4 (amended): when every attempt observes a rate-limit (429)
response and the 3-attempt budget is exhausted, `makeRequest` returns a
failed `APIResult` carrying the retry-after hint parsed from the final
response — but, contrary to the original claim, this path returns from
inside the retry loop before the post-loop breaker update, so the circuit
breaker is left entirely unchanged: `consecutiveFailures` is NOT
incremented and nothing is counted toward the open threshold. -/
theorem rate_limit_exhaustion (cb : CircuitBreaker) (now e : Nat)
    (oc : Nat → AttemptOutcome) (d1 d2 d3 : Option String)
    (hs : cb.state ≠ BState.opened)
    (h1 : oc 1 = .apiError (some 429) d1)
    (h2 : oc 2 = .apiError (some 429) d2)
    (h3 : oc 3 = .apiError (some 429) d3) :
    (makeRequest cb now e oc).result.success = false ∧
    (makeRequest cb now e oc).result.retryAfter =
      some (extractRetryAfter (d3.getD "")) ∧
    (makeRequest cb now e oc).result.error = some (d3.getD "Unknown API error") ∧
    (makeRequest cb now e oc).breaker = cb ∧
    (makeRequest cb now e oc).attempts = 3 ∧
    (makeRequest cb now e oc).sleeps =
      [SleepEvent.rateLimit (extractRetryAfter (d1.getD "") * 1000),
       SleepEvent.rateLimit (extractRetryAfter (d2.getD "") * 1000)] := by
  have e1 := attemptLoop_step_429 oc e 2 1 cb "" [] 0 d1 h1 (by decide)
  norm_num at e1
  have e2 := attemptLoop_step_429 oc e 1 2 cb (d1.getD "Unknown API error")
    [SleepEvent.rateLimit (extractRetryAfter (d1.getD "") * 1000)] 1 d2 h2
    (by decide)
  norm_num at e2
  have e3 := attemptLoop_429_final oc e 0 cb (d2.getD "Unknown API error")
    [SleepEvent.rateLimit (extractRetryAfter (d1.getD "") * 1000),
     SleepEvent.rateLimit (extractRetryAfter (d2.getD "") * 1000)] 2 d3 h3
  norm_num at e3
  rw [makeRequest_not_open cb now e oc hs]
  simp only [maxRetries]
  rw [e1, e2, e3]
  exact ⟨rfl, rfl, rfl, rfl, rfl, rfl⟩

/-- Claim C4, counterexample: starting from the initial (closed, 0-failure)
breaker, a call whose three attempts are all rate-limited returns
`success=false` with the retry-after hint, yet `consecutiveFailures` is
still 0 afterwards — the failure is NOT counted toward the breaker, unlike
other exhausted-retry failures. -/
theorem rate_limit_exhaustion_counterexample :
    (makeRequest initialBreaker 0 0 (fun _ =>
      AttemptOutcome.apiError (some 429)
        (some "Too Many Requests: retry after 2"))).result.success = false ∧
    (makeRequest initialBreaker 0 0 (fun _ =>
      AttemptOutcome.apiError (some 429)
        (some "Too Many Requests: retry after 2"))).result.retryAfter = some 2 ∧
    (makeRequest initialBreaker 0 0 (fun _ =>
      AttemptOutcome.apiError (some 429)
        (some "Too Many Requests: retry after 2"))).breaker.failures = 0 ∧
    (makeRequest initialBreaker 0 0 (fun _ =>
      AttemptOutcome.apiError (some 429)
        (some "Too Many Requests: retry after 2"))).breaker = initialBreaker := by
  decide

theorem rate_limit_exhaustion_witness :
    (makeRequest initialBreaker 4 9 (fun _ =>
      AttemptOutcome.apiError (some 429) (some "retry after 3"))).result.success
        = false ∧
    (makeRequest initialBreaker 4 9 (fun _ =>
      AttemptOutcome.apiError (some 429) (some "retry after 3"))).breaker
        = initialBreaker := by
  have h := rate_limit_exhaustion initialBreaker 4 9
    (fun _ => AttemptOutcome.apiError (some 429) (some "retry after 3"))
    (some "retry after 3") (some "retry after 3") (some "retry after 3")
    (by decide) rfl rfl rfl
  exact ⟨h.1, h.2.2.2.1⟩

/-- Claim C10 (amended): if a call proceeds from the half-open state (or
enters it after the cooldown from open) carrying at least 4 accumulated
failures — true of every reachable half-open state, which is entered from
open where the invariant gives ≥ 5 — and all three attempts fail with the
final one not rate-limited, then the breaker ends open with `lastFailure`
set to the time of this new failure; every later call strictly within 30 s
of that new time fast-fails, and a call 30 s or more after it proceeds
again: the cooldown restarts from the new failure rather than resuming from
the original one. (The non-429 proviso on the final attempt is forced: an
exhausted rate-limit run returns before the breaker update — see the
counterexample.) -/
theorem halfopen_failure_restarts_cooldown (cb : CircuitBreaker) (now e : Nat)
    (oc : Nat → AttemptOutcome)
    (hp : cb.state = BState.halfOpen ∨
      (cb.state = BState.opened ∧ 30000 ≤ now - cb.lastFailure))
    (hc : 4 ≤ cb.failures)
    (h1 : isFailOutcome (oc 1) = true) (h2 : isFailOutcome (oc 2) = true)
    (h3 : isFailOutcome (oc 3) = true) (n3 : is429 (oc 3) = false) :
    (makeRequest cb now e oc).result.success = false ∧
    (makeRequest cb now e oc).breaker.state = BState.opened ∧
    (makeRequest cb now e oc).breaker.lastFailure = e ∧
    (∀ (now2 e2 : Nat) (oc2 : Nat → AttemptOutcome), now2 - e < 30000 →
      (makeRequest (makeRequest cb now e oc).breaker now2 e2 oc2).attempts = 0 ∧
      (makeRequest (makeRequest cb now e oc).breaker now2 e2 oc2).result.success
        = false ∧
      (makeRequest (makeRequest cb now e oc).breaker now2 e2 oc2).result.error
        = some "Circuit breaker is open" ∧
      (makeRequest (makeRequest cb now e oc).breaker now2 e2 oc2).breaker
        = (makeRequest cb now e oc).breaker) ∧
    (∀ (now2 e2 : Nat) (oc2 : Nat → AttemptOutcome), 30000 ≤ now2 - e →
      1 ≤ (makeRequest (makeRequest cb now e oc).breaker now2 e2 oc2).attempts) := by
  have hred : ∃ cb2 : CircuitBreaker, cb2.failures = cb.failures ∧
      makeRequest cb now e oc = attemptLoop oc e 3 1 cb2 "" [] 0 := by
    rcases hp with h | ⟨h, ht⟩
    · refine ⟨cb, rfl, ?_⟩
      rw [makeRequest_not_open cb now e oc (by rw [h]; intro hx; cases hx)]
      simp only [maxRetries]
    · refine ⟨⟨cb.failures, cb.lastFailure, BState.halfOpen⟩, rfl, ?_⟩
      rw [makeRequest_open_elapsed cb now e oc h ht]
      simp only [maxRetries]
  obtain ⟨cb2, hf2, hred⟩ := hred
  have core := attemptLoop_allFail_core oc e cb2 "" [] 0 h1 h2 h3 n3
  rw [hf2] at core
  have hstate : (makeRequest cb now e oc).breaker.state = BState.opened := by
    rw [hred]
    rw [core.2.2.2.1]
    rw [if_pos (by omega)]
  have hlast : (makeRequest cb now e oc).breaker.lastFailure = e := by
    rw [hred]; exact core.2.2.1
  refine ⟨by rw [hred]; exact core.1, hstate, hlast, ?_, ?_⟩
  · intro now2 e2 oc2 hlt
    have hff := makeRequest_fastFail (makeRequest cb now e oc).breaker now2 e2
      oc2 hstate (by rw [hlast]; exact hlt)
    rw [hff]
    exact ⟨rfl, rfl, rfl, rfl⟩
  · intro now2 e2 oc2 hge
    exact makeRequest_attempts_pos (makeRequest cb now e oc).breaker now2 e2
      oc2 (Or.inr (by rw [hlast]; exact hge))

/-- Claim C10, counterexample: entering half-open from a reachable open
state (5 failures, cooldown elapsed), a call whose three attempts all fail —
each rate-limited — ends with the breaker still half-open and `lastFailure`
still the ORIGINAL failure time: the breaker does not end open and no fresh
cooldown starts, so subsequent calls do not fast-fail. -/
theorem halfopen_failure_restarts_cooldown_counterexample :
    (makeRequest { failures := 5, lastFailure := 0, state := BState.opened }
      30000 31000 (fun _ => AttemptOutcome.apiError (some 429)
        (some "retry after 1"))).result.success = false ∧
    (makeRequest { failures := 5, lastFailure := 0, state := BState.opened }
      30000 31000 (fun _ => AttemptOutcome.apiError (some 429)
        (some "retry after 1"))).breaker.state = BState.halfOpen ∧
    (makeRequest { failures := 5, lastFailure := 0, state := BState.opened }
      30000 31000 (fun _ => AttemptOutcome.apiError (some 429)
        (some "retry after 1"))).breaker.lastFailure = 0 := by
  decide

theorem halfopen_failure_restarts_cooldown_witness :
    (makeRequest { failures := 5, lastFailure := 0, state := BState.opened }
      30000 31000 (fun _ => AttemptOutcome.exn "boom" "Error" none)).breaker.state
      = BState.opened ∧
    (makeRequest { failures := 5, lastFailure := 0, state := BState.opened }
      30000 31000 (fun _ => AttemptOutcome.exn "boom" "Error" none)).breaker.lastFailure
      = 31000 := by
  have h := halfopen_failure_restarts_cooldown
    { failures := 5, lastFailure := 0, state := BState.opened } 30000 31000
    (fun _ => AttemptOutcome.exn "boom" "Error" none)
    (Or.inr ⟨rfl, by decide⟩) (by decide) (by decide) (by decide) (by decide)
    (by decide)
  exact ⟨h.2.1, h.2.2.1⟩

/-- A Telegram chat object; `id` is the chat/target id. -/
structure ChatObj where
  id : Nat
deriving DecidableEq, Repr

/-- A message-like payload (`message`, `edited_message`, `channel_post`).
`chat` may be absent — the malformed shape in which reading `chat.id`
throws a TypeError; `from.id`, `from.first_name` and `text` are optional. -/
structure MessageObj where
  chat : Option ChatObj
  fromId : Option Nat
  fromFirstName : Option String
  text : Option String
deriving DecidableEq, Repr

/-- A `callback_query` payload; `message` (and its `chat`) may be absent. -/
structure CallbackObj where
  id : String
  data : Option String
  fromId : Option Nat
  message : Option MessageObj
deriving DecidableEq, Repr

/-- An `inline_query` payload. -/
structure InlineQueryObj where
  id : String
  query : Option String
  fromId : Option Nat
deriving DecidableEq, Repr

/-- A `new_chat_member` object: its `status` field (absent reads as
`undefined`, which is simply not `"member"`). -/
structure MemberObj where
  status : Option String
deriving DecidableEq, Repr

/-- A `my_chat_member` payload: `chat` and `new_chat_member` may each be
absent (reading into a missing one throws). -/
structure ChatMemberUpdateObj where
  chat : Option ChatObj
  newChatMember : Option MemberObj
deriving DecidableEq, Repr

/-- An inbound update: the optional kind fields the dispatcher inspects.
An update with none of them populated is the `other`/unknown variant
(`poll`, `shipping_query`, ... are never dispatched). -/
structure UpdateObj where
  updateId : Nat
  message : Option MessageObj
  editedMessage : Option MessageObj
  callbackQuery : Option CallbackObj
  inlineQuery : Option InlineQueryObj
  channelPost : Option MessageObj
  myChatMember : Option ChatMemberUpdateObj
deriving DecidableEq, Repr

/-- One outbound Telegram API call attempted by the dispatcher. -/
inductive OutCall where
  | sendMessage (chatId : Nat) (text : String)
  | answerCallbackQuery (cbId : String) (text : String)
  | answerInlineQuery (qId : String) (resultText : String)
deriving DecidableEq, Repr

/-- What an attempted API call does: throw, or return an `APIResult` whose
`success` flag is given. Handlers guard every awaited call with try/catch,
so the model lets each call do either. -/
inductive ApiOutcome where
  | throwEx
  | res (success : Bool)
deriving DecidableEq, Repr

/-- The dispatcher's environment: the outbound API behavior per call and the
clock (`Date.now()`, held fixed across one dispatch). -/
structure Env where
  api : OutCall → ApiOutcome
  now : Nat

/-- The dispatcher's state: the shared TTL cache plus the ordered trace of
outbound calls attempted so far. -/
structure DState where
  cache : CacheV
  calls : List OutCall
deriving DecidableEq, Repr

/-- Attempt one outbound call: the attempt is recorded in the trace, then
the call either throws or returns its success flag. -/
def callApi (env : Env) (c : OutCall) (s : DState) : Except Unit Bool × DState :=
  let s1 : DState := { cache := s.cache, calls := s.calls ++ [c] }
  match env.api c with
  | .throwEx => (.error (), s1)
  | .res ok => (.ok ok, s1)

/-- `FALLBACK_MESSAGE`: the fixed technical-difficulties text. -/
def FALLBACK_MESSAGE : String :=
  "I\x27m sorry, I\x27m experiencing technical difficulties. Please try again later."

/-- The step-5 generic notice for an unhandled update. -/
def UNSURE_MESSAGE : String :=
  "I received your message but I\x27m not sure how to respond to this type of content."

/-- The `/start` welcome text (multi-line formatting and emoji elided). -/
def welcomeMessage : String :=
  "Welcome to the Telegram Bot! I\x27m a robust bot that never stops responding."

/-- The `/help` text (multi-line formatting and emoji elided). -/
def helpMessage : String :=
  "Bot Commands: /start /help /status /echo. Send me any message and I\x27ll respond!"

/-- The `/status` text (the interpolated uptime/memory/stat runtime metrics
are elided). -/
def statusMessage : String := "Bot Status: Online. All systems operational!"

/-- The edited-message notice. -/
def editedNotice : String :=
  "I noticed you edited your message. I don\x27t process edited messages, but feel free to send a new one!"

/-- The greeting sent when the bot is added as a member. -/
def joinedNotice : String :=
  "Thanks for adding me to this chat! Type /help to see what I can do."

/-- `WebhookHandler.sendFallbackMessage`: try the send; a thrown error is
logged and swallowed (the terminal error path never raises). -/
def sendFallbackMessage (env : Env) (chatId : Nat) (message : String)
    (s : DState) : DState :=
  (callApi env (.sendMessage chatId message) s).2

/-- `text.toLowerCase()`. -/
def toLowerStr (t : String) : String := String.map Char.toLower t

/-- Scan for an occurrence of `sub` at each position of `t`. -/
def listContains (sub : List Char) : List Char → Bool
  | [] => sub.isEmpty
  | c :: rest => List.isPrefixOf sub (c :: rest) || listContains sub rest

/-- JavaScript `String.prototype.includes`. -/
def strIncludes (t sub : String) : Bool := listContains sub.toList t.toList

/-- JavaScript `a || b` on an optional string: the empty string is falsy. -/
def strOr (a : Option String) (b : String) : String :=
  match a with
  | some s => if s = "" then b else s
  | none => b

/-- JavaScript truthiness of a numeric id (`0` is falsy): the guards
`if (chatId)`, `if (chatId && ...)` and `if (userId)` treat an id of 0
exactly like an absent one. -/
def truthyId : Option Nat → Option Nat
  | some 0 => none
  | some (n + 1) => some (n + 1)
  | none => none

/-- The handler-boundary try/catch: a thrown error inside a handler body is
caught and reported as the verdict `false`; state changes made before the
throw persist. -/
def catchBool : Except Unit Bool × DState → Bool × DState
  | (.ok b, s) => (b, s)
  | (.error _, s) => (false, s)

/-- `WebhookHandler.handleStartCommand`: one welcome send; its success flag
(or a thrown error) is the verdict. -/
def handleStartCommand (env : Env) (chatId : Nat) (s : DState) :
    Except Unit Bool × DState :=
  callApi env (.sendMessage chatId welcomeMessage) s

/-- `WebhookHandler.handleHelpCommand`. -/
def handleHelpCommand (env : Env) (chatId : Nat) (s : DState) :
    Except Unit Bool × DState :=
  callApi env (.sendMessage chatId helpMessage) s

/-- `WebhookHandler.handleStatusCommand`. -/
def handleStatusCommand (env : Env) (chatId : Nat) (s : DState) :
    Except Unit Bool × DState :=
  callApi env (.sendMessage chatId statusMessage) s

/-- `WebhookHandler.handleTextMessage`: the ordered pattern rules over the
lower-cased text produce the reply, then one send whose success is the
verdict; a thrown send is caught by the handler's own try/catch and
reported as `false`. (The `time` reply's timestamp interpolation is
elided.) -/
def handleTextMessage (env : Env) (chatId : Nat) (text : String)
    (m : MessageObj) (s : DState) : Bool × DState :=
  let lower := toLowerStr text
  let response :=
    if lower.startsWith "/echo " then text.drop 6
    else if strIncludes lower "hello" || strIncludes lower "hi" then
      "Hello " ++ strOr m.fromFirstName "there" ++ "!"
    else if strIncludes lower "how are you" then
      "I\x27m doing great! Thanks for asking. How can I help you today?"
    else if strIncludes lower "time" then "Current time."
    else "I received your message: \"" ++ text ++
      "\". I\x27m a simple bot, but I always respond! Try /help for more commands."
  catchBool (callApi env (.sendMessage chatId response) s)

/-- The `user:<id>:last_seen` stamp of `handleMessage` (24 h TTL), made for
a truthy `from.id`. Only the cache is touched. -/
def stampLastSeen (env : Env) (m : MessageObj) (s : DState) : DState :=
  match m.fromId with
  | some uid =>
    if uid ≠ 0 then
      { cache := cacheSet s.cache ("user:" ++ toString uid ++ ":last_seen")
          (.nat env.now) 86400 env.now,
        calls := s.calls }
    else s
  | none => s

/-- The text sub-dispatch of `handleMessage`: `/start`, `/help`, `/status`
by prefix, otherwise the free-text rules. -/
def messageSubdispatch (env : Env) (chatId : Nat) (text : String)
    (m : MessageObj) (s : DState) : Except Unit Bool × DState :=
  if text.startsWith "/start" then handleStartCommand env chatId s
  else if text.startsWith "/help" then handleHelpCommand env chatId s
  else if text.startsWith "/status" then handleStatusCommand env chatId s
  else
    match handleTextMessage env chatId text m s with
    | (b, s2) => (.ok b, s2)

/-- `WebhookHandler.handleMessage`: reads `message.chat.id` (throwing, and
caught by its own try/catch as `false`, when `chat` is absent), stamps the
sender's last-seen key, and sub-dispatches on the text; any throw is caught
and reported `false`. -/
def handleMessage (env : Env) (m : MessageObj) (s : DState) : Bool × DState :=
  catchBool (
    match m.chat with
    | none => (.error (), s)
    | some chat =>
      messageSubdispatch env chat.id (m.text.getD "") m (stampLastSeen env m s))

/-- `WebhookHandler.handleEditedMessage`: one notice send; `chat` absent
means the `chat.id` read throws and the catch reports `false`. -/
def handleEditedMessage (env : Env) (m : MessageObj) (s : DState) :
    Bool × DState :=
  catchBool (
    match m.chat with
    | none => (.error (), s)
    | some chat => callApi env (.sendMessage chat.id editedNotice) s)

/-- `WebhookHandler.handleCallbackQuery`: resolves the optional
`message?.chat?.id`, always answers the callback first (its returned result
is ignored, but a THROWN answer is caught and reported `false`), then, when
the chat id is truthy (`if (chatId)` — a chat id of 0 is falsy and skips
the reply), sends the `Button clicked` reply whose success is the verdict.
(`${data}` renders an absent `data` as `undefined`.) -/
def handleCallbackQuery (env : Env) (cb : CallbackObj) (s : DState) :
    Bool × DState :=
  let chatId := (cb.message.bind MessageObj.chat).map ChatObj.id
  let dataStr := cb.data.getD "undefined"
  catchBool (
    match callApi env (.answerCallbackQuery cb.id ("You clicked: " ++ dataStr)) s with
    | (.error e, s1) => (.error e, s1)
    | (.ok _, s1) =>
      match truthyId chatId with
      | some cid => callApi env (.sendMessage cid ("Button clicked: " ++ dataStr)) s1
      | none => (.ok true, s1))

/-- `WebhookHandler.handleInlineQuery`: one `answerInlineQuery` with the
echo article (`You searched for: ${query}`); a throw is caught as `false`. -/
def handleInlineQuery (env : Env) (q : InlineQueryObj) (s : DState) :
    Bool × DState :=
  catchBool (callApi env (.answerInlineQuery q.id
    ("You searched for: " ++ q.query.getD "undefined")) s)

/-- `WebhookHandler.handleChannelPost`: logs `post.chat.id` — with NO
try/catch of its own, so a channel post lacking `chat` throws out of the
handler — and returns `true` with no outbound call. -/
def handleChannelPost (post : MessageObj) (s : DState) :
    Except Unit Bool × DState :=
  match post.chat with
  | none => (.error (), s)
  | some _ => (.ok true, s)

/-- `WebhookHandler.handleChatMemberUpdate`: reads `chat.id` and
`new_chat_member.status` (either missing object makes the read throw,
caught as `false`); greets on status `"member"`, otherwise handled with no
call. -/
def handleChatMemberUpdate (env : Env) (u : ChatMemberUpdateObj)
    (s : DState) : Bool × DState :=
  catchBool (
    match u.chat with
    | none => (.error (), s)
    | some chat =>
      match u.newChatMember with
      | none => (.error (), s)
      | some mem =>
        if mem.status = some "member" then
          callApi env (.sendMessage chat.id joinedNotice) s
        else (.ok true, s))

/-- The tail of `extractChatId` (`channel_post`, then `my_chat_member`),
reached when neither `message` / `edited_message` is populated nor
`callback_query?.message`. -/
def extractChatIdLate (u : UpdateObj) : Except Unit (Option Nat) :=
  match u.channelPost with
  | some m =>
    match m.chat with
    | some chat => .ok (some chat.id)
    | none => .error ()
  | none =>
    match u.myChatMember with
    | some cm =>
      match cm.chat with
      | some chat => .ok (some chat.id)
      | none => .error ()
    | none => .ok none

/-- `WebhookHandler.extractChatId`: returns `<variant>.chat.id` for the
first populated of `message`, `edited_message`, `callback_query?.message`
(only the `message` step is optional-chained: a populated callback message
lacking `chat` throws), `channel_post`, `my_chat_member`; reading `.id` of
a missing `chat` throws (`.error`); `.ok none` when nothing matches. -/
def extractChatId (u : UpdateObj) : Except Unit (Option Nat) :=
  match u.message with
  | some m =>
    match m.chat with
    | some chat => .ok (some chat.id)
    | none => .error ()
  | none =>
    match u.editedMessage with
    | some m =>
      match m.chat with
      | some chat => .ok (some chat.id)
      | none => .error ()
    | none =>
      match u.callbackQuery with
      | some cb =>
        match cb.message with
        | some m =>
          match m.chat with
          | some chat => .ok (some chat.id)
          | none => .error ()
        | none => extractChatIdLate u
      | none => extractChatIdLate u

/-- `WebhookHandler.getUpdateType`: the first populated kind field's name,
`"unknown"` when none is recognized. -/
def getUpdateType (u : UpdateObj) : String :=
  if u.message.isSome then "message"
  else if u.editedMessage.isSome then "edited_message"
  else if u.callbackQuery.isSome then "callback_query"
  else if u.inlineQuery.isSome then "inline_query"
  else if u.channelPost.isSome then "channel_post"
  else if u.myChatMember.isSome then "my_chat_member"
  else "unknown"

/-- `StatsManager.extractUserId`: the sender id of `message`,
`callback_query` or `inline_query` (optional-chained, so never throws). -/
def extractUserId (u : UpdateObj) : Option Nat :=
  match truthyId (u.message.bind MessageObj.fromId) with
  | some uid => some uid
  | none =>
    match truthyId (u.callbackQuery.bind CallbackObj.fromId) with
    | some uid => some uid
    | none => truthyId (u.inlineQuery.bind InlineQueryObj.fromId)

/-- `StatsManager.recordUpdate`: bump `stats:total_messages` (7-day TTL),
stamp `stats:user:<id>` (24 h) for a truthy sender id, stamp
`stats:last_activity` (24 h; the ISO string abstracted as the decimal clock
value), and read `stats:errors_24h` (a read that may lazily evict it).
Touches only the cache: no outbound calls, no throwing. -/
def recordUpdate (env : Env) (u : UpdateObj) (c : CacheV) : CacheV :=
  let r1 := cacheGet c "stats:total_messages" env.now
  let c1 := cacheSet r1.2 "stats:total_messages"
    (.nat (cvalToCount r1.1 + 1)) (86400 * 7) env.now
  let c2 :=
    match extractUserId u with
    | some uid =>
      cacheSet c1 ("stats:user:" ++ toString uid) (.nat env.now) 86400 env.now
    | none => c1
  let c3 := cacheSet c2 "stats:last_activity" (.str (toString env.now))
    86400 env.now
  (cacheGet c3 "stats:errors_24h" env.now).2

/-- The variant dispatch chain of `handleWebhook` (first populated field
wins); an update with no recognized kind field matches no handler and is
reported unhandled (`.ok false`) — the `other` variant. Only
`handleChannelPost` can throw out of this chain. -/
def dispatchVariant (env : Env) (u : UpdateObj) (s : DState) :
    Except Unit Bool × DState :=
  match u.message with
  | some m =>
    match handleMessage env m s with
    | (b, s1) => (.ok b, s1)
  | none =>
    match u.editedMessage with
    | some m =>
      match handleEditedMessage env m s with
      | (b, s1) => (.ok b, s1)
    | none =>
      match u.callbackQuery with
      | some cb =>
        match handleCallbackQuery env cb s with
        | (b, s1) => (.ok b, s1)
      | none =>
        match u.inlineQuery with
        | some q =>
          match handleInlineQuery env q s with
          | (b, s1) => (.ok b, s1)
        | none =>
          match u.channelPost with
          | some post => handleChannelPost post s
          | none =>
            match u.myChatMember with
            | some cm =>
              match handleChatMemberUpdate env cm s with
              | (b, s1) => (.ok b, s1)
            | none => (.ok false, s)

/-- The try-block of `handleWebhook`: log (no-op), record usage, extract the
chat id (which may throw), throttle-check and silently drop when throttled,
dispatch by variant, and send the generic "not sure" notice when the update
is unhandled and the chat id is truthy — the guards
`if (chatId && isThrottled(chatId))` and `if (!handled && chatId)` use JS
truthiness, so a chat id of 0 skips both the throttle check and the
fallback. `.error` means an exception escaped the try block into the
catch. -/
def webhookBody (env : Env) (u : UpdateObj) (s : DState) :
    Except Unit Unit × DState :=
  let s0 : DState := { cache := recordUpdate env u s.cache, calls := s.calls }
  match extractChatId u with
  | .error e => (.error e, s0)
  | .ok chatId =>
    let thr : Bool × DState :=
      match truthyId chatId with
      | some cid =>
        match isThrottled s0.cache cid env.now with
        | (b, c1) => (b, { cache := c1, calls := s0.calls })
      | none => (false, s0)
    if thr.1 then (.ok (), thr.2)
    else
      match dispatchVariant env u thr.2 with
      | (.error e, s2) => (.error e, s2)
      | (.ok handled, s2) =>
        if handled = false then
          match truthyId chatId with
          | some cid => (.ok (), sendFallbackMessage env cid UNSURE_MESSAGE s2)
          | none => (.ok (), s2)
        else (.ok (), s2)

/-- `WebhookHandler.handleWebhook`: run the try block; on an escaped
exception the catch logs and calls `extractChatId` AGAIN — a call that can
itself throw, in which case `handleWebhook` raises — and otherwise sends
the fixed technical-difficulties fallback when a truthy chat id was
recovered (`if (chatId)`; that send swallows its own failures). -/
def handleWebhook (env : Env) (u : UpdateObj) (s : DState) :
    Except Unit Unit × DState :=
  match webhookBody env u s with
  | (.ok _, s1) => (.ok (), s1)
  | (.error _, s1) =>
    match extractChatId u with
    | .error e2 => (.error e2, s1)
    | .ok chatId =>
      match truthyId chatId with
      | some cid => (.ok (), sendFallbackMessage env cid FALLBACK_MESSAGE s1)
      | none => (.ok (), s1)

/-- An update whose only populated kind field is `message` (§6 of the spec:
exactly one populated kind field per delivery). -/
def msgUpdate (n : Nat) (m : MessageObj) : UpdateObj :=
  { updateId := n, message := some m, editedMessage := none,
    callbackQuery := none, inlineQuery := none, channelPost := none,
    myChatMember := none }

/-- An update whose only populated kind field is `edited_message`. -/
def editedUpdate (n : Nat) (m : MessageObj) : UpdateObj :=
  { updateId := n, message := none, editedMessage := some m,
    callbackQuery := none, inlineQuery := none, channelPost := none,
    myChatMember := none }

/-- An update whose only populated kind field is `callback_query`. -/
def callbackUpdate (n : Nat) (cb : CallbackObj) : UpdateObj :=
  { updateId := n, message := none, editedMessage := none,
    callbackQuery := some cb, inlineQuery := none, channelPost := none,
    myChatMember := none }

/-- An update whose only populated kind field is `inline_query`. -/
def inlineUpdate (n : Nat) (q : InlineQueryObj) : UpdateObj :=
  { updateId := n, message := none, editedMessage := none,
    callbackQuery := none, inlineQuery := some q, channelPost := none,
    myChatMember := none }

/-- An update whose only populated kind field is `channel_post`. -/
def channelPostUpdate (n : Nat) (m : MessageObj) : UpdateObj :=
  { updateId := n, message := none, editedMessage := none,
    callbackQuery := none, inlineQuery := none, channelPost := some m,
    myChatMember := none }

/-- An update with NO recognized kind field populated (e.g. a `poll` or
`shipping_query` delivery): the `other`/unknown variant. -/
def otherUpdate (n : Nat) : UpdateObj :=
  { updateId := n, message := none, editedMessage := none,
    callbackQuery := none, inlineQuery := none, channelPost := none,
    myChatMember := none }

/-- A dispatch starting state: the given cache and an empty call trace. -/
def initState (c : CacheV) : DState := { cache := c, calls := [] }

theorem string_data_append (s t : String) : (s ++ t).data = s.data ++ t.data := by
  cases s
  cases t
  rfl

theorem throttleKey_data (cid : Nat) :
    (throttleKey cid).data = 't' :: ("hrottle:".data ++ (toString cid).data) := by
  unfold throttleKey
  rw [string_data_append]
  rfl

theorem throttleKey_ne_of_head (cid : Nat) (b : String) (l : List Char)
    (hb : b.data = 's' :: l) : throttleKey cid ≠ b := by
  intro h
  have hd := congrArg String.data h
  rw [throttleKey_data, hb] at hd
  injection hd with h1 _
  exact absurd h1 (by decide)

theorem mapGet_cacheSet_ne {α : Type} (c : List (String × CacheItem α))
    (k k0 : String) (v : α) (ttl now : Nat) (h : k ≠ k0) :
    mapGet (cacheSet c k0 v ttl now) k = mapGet c k :=
  mapGet_mapSet_ne c k k0 _ h

theorem mapGet_cacheGet_snd_ne {α : Type} (c : List (String × CacheItem α))
    (k k0 : String) (now : Nat) (h : k ≠ k0) :
    mapGet (cacheGet c k0 now).2 k = mapGet c k := by
  unfold cacheGet
  cases hm : mapGet c k0 with
  | none => rfl
  | some item =>
    by_cases he : item.expiry < now
    · simp [he, mapGet_mapDelete_ne c k k0 h]
    · simp [he]

theorem mapGet_recordUpdate_throttle (env : Env) (u : UpdateObj) (c : CacheV)
    (cid : Nat) :
    mapGet (recordUpdate env u c) (throttleKey cid) =
      mapGet c (throttleKey cid) := by
  have k1 := throttleKey_ne_of_head cid "stats:total_messages" _ rfl
  have k3 := throttleKey_ne_of_head cid "stats:last_activity" _ rfl
  have k4 := throttleKey_ne_of_head cid "stats:errors_24h" _ rfl
  simp only [recordUpdate]
  rw [mapGet_cacheGet_snd_ne _ _ _ _ k4, mapGet_cacheSet_ne _ _ _ _ _ _ k3]
  cases hu : extractUserId u with
  | none =>
    rw [mapGet_cacheSet_ne _ _ _ _ _ _ k1, mapGet_cacheGet_snd_ne _ _ _ _ k1]
  | some uid =>
    have k2 := throttleKey_ne_of_head cid ("stats:user:" ++ toString uid)
      ("tats:user:".data ++ (toString uid).data)
      (by rw [string_data_append]; rfl)
    rw [mapGet_cacheSet_ne _ _ _ _ _ _ k2, mapGet_cacheSet_ne _ _ _ _ _ _ k1,
      mapGet_cacheGet_snd_ne _ _ _ _ k1]

theorem cacheGet_fst_congr {α : Type} (c1 c2 : List (String × CacheItem α))
    (k : String) (now : Nat) (h : mapGet c1 k = mapGet c2 k) :
    (cacheGet c1 k now).1 = (cacheGet c2 k now).1 := by
  unfold cacheGet
  rw [h]
  cases mapGet c2 k with
  | none => rfl
  | some item => by_cases he : item.expiry < now <;> simp [he]

theorem isThrottled_fst (c : CacheV) (cid now : Nat) :
    (isThrottled c cid now).1 =
      decide (10 ≤ cvalToCount (cacheGet c (throttleKey cid) now).1) := by
  simp only [isThrottled]
  cases hg : cacheGet c (throttleKey cid) now with
  | mk got c1 => by_cases h : 10 ≤ cvalToCount got <;> simp [h]

theorem isThrottled_fst_congr (c1 c2 : CacheV) (cid now : Nat)
    (h : mapGet c1 (throttleKey cid) = mapGet c2 (throttleKey cid)) :
    (isThrottled c1 cid now).1 = (isThrottled c2 cid now).1 := by
  rw [isThrottled_fst, isThrottled_fst, cacheGet_fst_congr c1 c2 _ now h]

theorem catchBool_snd (r : Except Unit Bool × DState) : (catchBool r).2 = r.2 := by
  rcases r with ⟨e, s⟩
  cases e <;> rfl

theorem truthyId_none : truthyId none = none := rfl

theorem truthyId_some_of_ne (cid : Nat) (h : cid ≠ 0) :
    truthyId (some cid) = some cid := by
  cases cid with
  | zero => exact absurd rfl h
  | succ k => rfl

theorem callApi_calls (env : Env) (c : OutCall) (s : DState) :
    (callApi env c s).2.calls = s.calls ++ [c] := by
  unfold callApi
  cases env.api c <;> rfl

theorem callApi_throw (env : Env) (hapi : ∀ x, env.api x = ApiOutcome.throwEx)
    (c : OutCall) (s : DState) :
    callApi env c s =
      (.error (), { cache := s.cache, calls := s.calls ++ [c] }) := by
  unfold callApi
  rw [hapi c]

theorem sendFallbackMessage_calls (env : Env) (cid : Nat) (msg : String)
    (s : DState) :
    (sendFallbackMessage env cid msg s).calls =
      s.calls ++ [OutCall.sendMessage cid msg] := by
  unfold sendFallbackMessage
  exact callApi_calls env _ s

theorem handleTextMessage_calls (env : Env) (chatId : Nat) (text : String)
    (m : MessageObj) (s : DState) :
    ∃ t, (handleTextMessage env chatId text m s).2.calls =
      s.calls ++ [OutCall.sendMessage chatId t] := by
  simp only [handleTextMessage]
  rw [catchBool_snd]
  exact ⟨_, callApi_calls env _ s⟩

theorem messageSubdispatch_calls (env : Env) (chatId : Nat) (text : String)
    (m : MessageObj) (s : DState) :
    ∃ t, (messageSubdispatch env chatId text m s).2.calls =
      s.calls ++ [OutCall.sendMessage chatId t] := by
  by_cases h1 : text.startsWith "/start"
  · exact ⟨welcomeMessage,
      by simp [messageSubdispatch, h1, handleStartCommand, callApi_calls]⟩
  · by_cases h2 : text.startsWith "/help"
    · exact ⟨helpMessage,
        by simp [messageSubdispatch, h1, h2, handleHelpCommand, callApi_calls]⟩
    · by_cases h3 : text.startsWith "/status"
      · exact ⟨statusMessage, by
          simp [messageSubdispatch, h1, h2, h3, handleStatusCommand, callApi_calls]⟩
      · obtain ⟨t, ht⟩ := handleTextMessage_calls env chatId text m s
        refine ⟨t, ?_⟩
        simp only [messageSubdispatch, h1, h2, h3, if_false]
        rcases hp : handleTextMessage env chatId text m s with ⟨b, s2⟩
        rw [hp] at ht
        simpa using ht

theorem stampLastSeen_calls (env : Env) (m : MessageObj) (s : DState) :
    (stampLastSeen env m s).calls = s.calls := by
  unfold stampLastSeen
  cases m.fromId with
  | none => rfl
  | some uid => by_cases h : uid ≠ 0 <;> simp [h]

theorem handleMessage_calls (env : Env) (m : MessageObj) (chat : ChatObj)
    (hch : m.chat = some chat) (s : DState) :
    ∃ t, (handleMessage env m s).2.calls =
      s.calls ++ [OutCall.sendMessage chat.id t] := by
  obtain ⟨t, ht⟩ := messageSubdispatch_calls env chat.id (m.text.getD "") m
    (stampLastSeen env m s)
  refine ⟨t, ?_⟩
  unfold handleMessage
  rw [catchBool_snd, hch]
  rw [stampLastSeen_calls] at ht
  simpa using ht

theorem handleEditedMessage_calls (env : Env) (m : MessageObj) (chat : ChatObj)
    (hch : m.chat = some chat) (s : DState) :
    (handleEditedMessage env m s).2.calls =
      s.calls ++ [OutCall.sendMessage chat.id editedNotice] := by
  unfold handleEditedMessage
  rw [catchBool_snd, hch]
  simpa using callApi_calls env _ s

theorem handleCallbackQuery_calls (env : Env) (cb : CallbackObj) (s : DState) :
    ∃ rest, (handleCallbackQuery env cb s).2.calls =
      s.calls ++ OutCall.answerCallbackQuery cb.id
        ("You clicked: " ++ cb.data.getD "undefined") :: rest := by
  simp only [handleCallbackQuery]
  rw [catchBool_snd]
  rcases ha : callApi env (.answerCallbackQuery cb.id
    ("You clicked: " ++ cb.data.getD "undefined")) s with ⟨er, s1⟩
  have hs1 : s1.calls = s.calls ++ [OutCall.answerCallbackQuery cb.id
      ("You clicked: " ++ cb.data.getD "undefined")] := by
    have h := callApi_calls env (.answerCallbackQuery cb.id
      ("You clicked: " ++ cb.data.getD "undefined")) s
    rw [ha] at h
    exact h
  cases er with
  | error e => exact ⟨[], by simp [ha, hs1]⟩
  | ok b =>
    cases hcid : truthyId ((cb.message.bind MessageObj.chat).map ChatObj.id) with
    | none => exact ⟨[], by simp [ha, hcid, hs1]⟩
    | some cid =>
      refine ⟨[OutCall.sendMessage cid
        ("Button clicked: " ++ cb.data.getD "undefined")], ?_⟩
      simp only [ha, hcid]
      rw [callApi_calls, hs1]
      simp

theorem handleInlineQuery_calls (env : Env) (q : InlineQueryObj) (s : DState) :
    (handleInlineQuery env q s).2.calls = s.calls ++
      [OutCall.answerInlineQuery q.id
        ("You searched for: " ++ q.query.getD "undefined")] := by
  unfold handleInlineQuery
  rw [catchBool_snd, callApi_calls]

theorem handleWebhook_eq_of_body_ok (env : Env) (u : UpdateObj) (s : DState)
    (h : (webhookBody env u s).1 = Except.ok ()) :
    handleWebhook env u s = (Except.ok (), (webhookBody env u s).2) := by
  unfold handleWebhook
  rcases hb : webhookBody env u s with ⟨r, s1⟩
  rw [hb] at h
  cases r with
  | ok v => rfl
  | error e => simp at h

theorem dispatchVariant_msg (env : Env) (n : Nat) (m : MessageObj) (s : DState) :
    dispatchVariant env (msgUpdate n m) s =
      (Except.ok (handleMessage env m s).1, (handleMessage env m s).2) := by
  simp only [dispatchVariant, msgUpdate]

theorem dispatchVariant_edited (env : Env) (n : Nat) (m : MessageObj)
    (s : DState) :
    dispatchVariant env (editedUpdate n m) s =
      (Except.ok (handleEditedMessage env m s).1,
       (handleEditedMessage env m s).2) := by
  simp only [dispatchVariant, editedUpdate]

theorem dispatchVariant_callback (env : Env) (n : Nat) (cb : CallbackObj)
    (s : DState) :
    dispatchVariant env (callbackUpdate n cb) s =
      (Except.ok (handleCallbackQuery env cb s).1,
       (handleCallbackQuery env cb s).2) := by
  simp only [dispatchVariant, callbackUpdate]

theorem dispatchVariant_inline (env : Env) (n : Nat) (q : InlineQueryObj)
    (s : DState) :
    dispatchVariant env (inlineUpdate n q) s =
      (Except.ok (handleInlineQuery env q s).1,
       (handleInlineQuery env q s).2) := by
  simp only [dispatchVariant, inlineUpdate]

theorem webhookBody_msg_spec (env : Env) (c : CacheV) (n : Nat)
    (m : MessageObj) (chat : ChatObj) (hch : m.chat = some chat)
    (hcid : chat.id ≠ 0)
    (hthr : (isThrottled c chat.id env.now).1 = false) :
    ∃ (t : String) (b : Bool) (s2 : DState),
      handleMessage env m
        { cache := (isThrottled (recordUpdate env (msgUpdate n m) c)
            chat.id env.now).2, calls := [] } = (b, s2) ∧
      s2.calls = [OutCall.sendMessage chat.id t] ∧
      (webhookBody env (msgUpdate n m) (initState c)).1 = Except.ok () ∧
      (webhookBody env (msgUpdate n m) (initState c)).2.calls =
        (if b then s2.calls
         else s2.calls ++ [OutCall.sendMessage chat.id UNSURE_MESSAGE]) := by
  have hex : extractChatId (msgUpdate n m) = .ok (some chat.id) := by
    simp [extractChatId, msgUpdate, hch]
  have hthr2 : (isThrottled (recordUpdate env (msgUpdate n m) c)
      chat.id env.now).1 = false := by
    rw [isThrottled_fst_congr _ c chat.id env.now
      (mapGet_recordUpdate_throttle env (msgUpdate n m) c chat.id)]
    exact hthr
  rcases hit : isThrottled (recordUpdate env (msgUpdate n m) c) chat.id env.now
    with ⟨tb, c1⟩
  rw [hit] at hthr2
  simp only at hthr2
  subst hthr2
  rcases hhm : handleMessage env m ({ cache := c1, calls := [] } : DState)
    with ⟨b, s2⟩
  obtain ⟨t, ht⟩ := handleMessage_calls env m chat hch
    { cache := c1, calls := [] }
  rw [hhm] at ht
  simp only [List.nil_append] at ht
  refine ⟨t, b, s2, rfl, ht, ?_⟩
  simp only [webhookBody, initState, hex, truthyId_some_of_ne chat.id hcid,
    hit, dispatchVariant_msg, hhm]
  cases b
  · simp [sendFallbackMessage_calls, ht]
  · simp

theorem webhookBody_edited_spec (env : Env) (c : CacheV) (n : Nat)
    (m : MessageObj) (chat : ChatObj) (hch : m.chat = some chat)
    (hcid : chat.id ≠ 0)
    (hthr : (isThrottled c chat.id env.now).1 = false) :
    ∃ (b : Bool) (s2 : DState),
      handleEditedMessage env m
        { cache := (isThrottled (recordUpdate env (editedUpdate n m) c)
            chat.id env.now).2, calls := [] } = (b, s2) ∧
      s2.calls = [OutCall.sendMessage chat.id editedNotice] ∧
      (webhookBody env (editedUpdate n m) (initState c)).1 = Except.ok () ∧
      (webhookBody env (editedUpdate n m) (initState c)).2.calls =
        (if b then s2.calls
         else s2.calls ++ [OutCall.sendMessage chat.id UNSURE_MESSAGE]) := by
  have hex : extractChatId (editedUpdate n m) = .ok (some chat.id) := by
    simp [extractChatId, editedUpdate, hch]
  have hthr2 : (isThrottled (recordUpdate env (editedUpdate n m) c)
      chat.id env.now).1 = false := by
    rw [isThrottled_fst_congr _ c chat.id env.now
      (mapGet_recordUpdate_throttle env (editedUpdate n m) c chat.id)]
    exact hthr
  rcases hit : isThrottled (recordUpdate env (editedUpdate n m) c)
    chat.id env.now with ⟨tb, c1⟩
  rw [hit] at hthr2
  simp only at hthr2
  subst hthr2
  rcases hhm : handleEditedMessage env m ({ cache := c1, calls := [] } : DState)
    with ⟨b, s2⟩
  have ht := handleEditedMessage_calls env m chat hch
    { cache := c1, calls := [] }
  rw [hhm] at ht
  simp only [List.nil_append] at ht
  refine ⟨b, s2, rfl, ht, ?_⟩
  simp only [webhookBody, initState, hex, truthyId_some_of_ne chat.id hcid,
    hit, dispatchVariant_edited, hhm]
  cases b
  · simp [sendFallbackMessage_calls, ht]
  · simp

theorem webhookBody_callback_spec (env : Env) (c : CacheV) (n : Nat)
    (cb : CallbackObj) (mm : MessageObj) (chat : ChatObj)
    (hm : cb.message = some mm) (hch : mm.chat = some chat)
    (hcid : chat.id ≠ 0)
    (hthr : (isThrottled c chat.id env.now).1 = false) :
    ∃ (rest : List OutCall) (b : Bool) (s2 : DState),
      handleCallbackQuery env cb
        { cache := (isThrottled (recordUpdate env (callbackUpdate n cb) c)
            chat.id env.now).2, calls := [] } = (b, s2) ∧
      s2.calls = OutCall.answerCallbackQuery cb.id
        ("You clicked: " ++ cb.data.getD "undefined") :: rest ∧
      (webhookBody env (callbackUpdate n cb) (initState c)).1 = Except.ok () ∧
      (webhookBody env (callbackUpdate n cb) (initState c)).2.calls =
        (if b then s2.calls
         else s2.calls ++ [OutCall.sendMessage chat.id UNSURE_MESSAGE]) := by
  have hex : extractChatId (callbackUpdate n cb) = .ok (some chat.id) := by
    simp [extractChatId, callbackUpdate, hm, hch]
  have hthr2 : (isThrottled (recordUpdate env (callbackUpdate n cb) c)
      chat.id env.now).1 = false := by
    rw [isThrottled_fst_congr _ c chat.id env.now
      (mapGet_recordUpdate_throttle env (callbackUpdate n cb) c chat.id)]
    exact hthr
  rcases hit : isThrottled (recordUpdate env (callbackUpdate n cb) c)
    chat.id env.now with ⟨tb, c1⟩
  rw [hit] at hthr2
  simp only at hthr2
  subst hthr2
  rcases hhc : handleCallbackQuery env cb
    ({ cache := c1, calls := [] } : DState) with ⟨b, s2⟩
  obtain ⟨rest, hr⟩ := handleCallbackQuery_calls env cb
    { cache := c1, calls := [] }
  rw [hhc] at hr
  simp only [List.nil_append] at hr
  refine ⟨rest, b, s2, rfl, hr, ?_⟩
  simp only [webhookBody, initState, hex, truthyId_some_of_ne chat.id hcid,
    hit, dispatchVariant_callback, hhc]
  cases b
  · simp [sendFallbackMessage_calls, hr]
  · simp

theorem webhookBody_callback_nomsg_spec (env : Env) (c : CacheV) (n : Nat)
    (cb : CallbackObj) (hm : cb.message = none) :
    (webhookBody env (callbackUpdate n cb) (initState c)).1 = Except.ok () ∧
    ∃ rest, (webhookBody env (callbackUpdate n cb) (initState c)).2.calls =
      OutCall.answerCallbackQuery cb.id
        ("You clicked: " ++ cb.data.getD "undefined") :: rest := by
  have hex : extractChatId (callbackUpdate n cb) = .ok none := by
    simp [extractChatId, extractChatIdLate, callbackUpdate, hm]
  rcases hhc : handleCallbackQuery env cb
    ({ cache := recordUpdate env (callbackUpdate n cb) c, calls := [] } : DState)
    with ⟨b, s2⟩
  obtain ⟨rest, hr⟩ := handleCallbackQuery_calls env cb
    { cache := recordUpdate env (callbackUpdate n cb) c, calls := [] }
  rw [hhc] at hr
  simp only [List.nil_append] at hr
  constructor
  · simp only [webhookBody, initState, hex, truthyId_none,
      dispatchVariant_callback, hhc]
    cases b <;> simp
  · refine ⟨rest, ?_⟩
    simp only [webhookBody, initState, hex, truthyId_none,
      dispatchVariant_callback, hhc]
    cases b <;> simp [hr]

theorem webhookBody_inline_spec (env : Env) (c : CacheV) (n : Nat)
    (q : InlineQueryObj) :
    (webhookBody env (inlineUpdate n q) (initState c)).1 = Except.ok () ∧
    (webhookBody env (inlineUpdate n q) (initState c)).2.calls =
      [OutCall.answerInlineQuery q.id
        ("You searched for: " ++ q.query.getD "undefined")] := by
  have hex : extractChatId (inlineUpdate n q) = .ok none := by
    simp [extractChatId, extractChatIdLate, inlineUpdate]
  rcases hhi : handleInlineQuery env q
    ({ cache := recordUpdate env (inlineUpdate n q) c, calls := [] } : DState)
    with ⟨b, s2⟩
  have hr := handleInlineQuery_calls env q
    { cache := recordUpdate env (inlineUpdate n q) c, calls := [] }
  rw [hhi] at hr
  simp only [List.nil_append] at hr
  constructor
  · simp only [webhookBody, initState, hex, truthyId_none,
      dispatchVariant_inline, hhi]
    cases b <;> simp
  · simp only [webhookBody, initState, hex, truthyId_none,
      dispatchVariant_inline, hhi]
    cases b <;> simp [hr]

theorem webhookBody_msg_zero_spec (env : Env) (c : CacheV) (n : Nat)
    (m : MessageObj) (chat : ChatObj) (hch : m.chat = some chat)
    (hcid : chat.id = 0) :
    (webhookBody env (msgUpdate n m) (initState c)).1 = Except.ok () ∧
    (webhookBody env (msgUpdate n m) (initState c)).2.calls ≠ [] := by
  have hex : extractChatId (msgUpdate n m) = .ok (some chat.id) := by
    simp [extractChatId, msgUpdate, hch]
  have htz : truthyId (some chat.id) = none := by rw [hcid]; rfl
  rcases hhm : handleMessage env m
    ({ cache := recordUpdate env (msgUpdate n m) c, calls := [] } : DState)
    with ⟨b, s2⟩
  obtain ⟨t, ht⟩ := handleMessage_calls env m chat hch
    { cache := recordUpdate env (msgUpdate n m) c, calls := [] }
  rw [hhm] at ht
  simp only [List.nil_append] at ht
  constructor
  · simp only [webhookBody, initState, hex, htz, dispatchVariant_msg, hhm]
    cases b <;> simp
  · simp only [webhookBody, initState, hex, htz, dispatchVariant_msg, hhm]
    cases b <;> simp [ht]

theorem webhookBody_edited_zero_spec (env : Env) (c : CacheV) (n : Nat)
    (m : MessageObj) (chat : ChatObj) (hch : m.chat = some chat)
    (hcid : chat.id = 0) :
    (webhookBody env (editedUpdate n m) (initState c)).1 = Except.ok () ∧
    (webhookBody env (editedUpdate n m) (initState c)).2.calls ≠ [] := by
  have hex : extractChatId (editedUpdate n m) = .ok (some chat.id) := by
    simp [extractChatId, editedUpdate, hch]
  have htz : truthyId (some chat.id) = none := by rw [hcid]; rfl
  rcases hhm : handleEditedMessage env m
    ({ cache := recordUpdate env (editedUpdate n m) c, calls := [] } : DState)
    with ⟨b, s2⟩
  have ht := handleEditedMessage_calls env m chat hch
    { cache := recordUpdate env (editedUpdate n m) c, calls := [] }
  rw [hhm] at ht
  simp only [List.nil_append] at ht
  constructor
  · simp only [webhookBody, initState, hex, htz, dispatchVariant_edited, hhm]
    cases b <;> simp
  · simp only [webhookBody, initState, hex, htz, dispatchVariant_edited, hhm]
    cases b <;> simp [ht]

theorem webhookBody_callback_zero_spec (env : Env) (c : CacheV) (n : Nat)
    (cb : CallbackObj) (mm : MessageObj) (chat : ChatObj)
    (hm : cb.message = some mm) (hch : mm.chat = some chat)
    (hcid : chat.id = 0) :
    (webhookBody env (callbackUpdate n cb) (initState c)).1 = Except.ok () ∧
    (webhookBody env (callbackUpdate n cb) (initState c)).2.calls ≠ [] := by
  have hex : extractChatId (callbackUpdate n cb) = .ok (some chat.id) := by
    simp [extractChatId, callbackUpdate, hm, hch]
  have htz : truthyId (some chat.id) = none := by rw [hcid]; rfl
  rcases hhc : handleCallbackQuery env cb
    ({ cache := recordUpdate env (callbackUpdate n cb) c, calls := [] } : DState)
    with ⟨b, s2⟩
  obtain ⟨rest, hr⟩ := handleCallbackQuery_calls env cb
    { cache := recordUpdate env (callbackUpdate n cb) c, calls := [] }
  rw [hhc] at hr
  simp only [List.nil_append] at hr
  constructor
  · simp only [webhookBody, initState, hex, htz, dispatchVariant_callback, hhc]
    cases b <;> simp
  · simp only [webhookBody, initState, hex, htz, dispatchVariant_callback, hhc]
    cases b <;> simp [hr]

/-- Claim C1, evaluation at the failing input: for the update
`{update_id: 1, message: {}}` — a message variant lacking the `chat` field —
`handleWebhook` RAISES instead of completing: the first `extractChatId`
throws inside the try block, and the recovery step's second `extractChatId`
call throws again, this time out of the catch block, with no outbound call
attempted. -/
theorem handleWebhook_raises_on_chatless_message (env : Env) (c : CacheV) :
    (handleWebhook env (msgUpdate 1
      { chat := none, fromId := none, fromFirstName := none, text := none })
      (initState c)).1 = Except.error () ∧
    (handleWebhook env (msgUpdate 1
      { chat := none, fromId := none, fromFirstName := none, text := none })
      (initState c)).2.calls = [] := by
  have hex : extractChatId (msgUpdate 1
      { chat := none, fromId := none, fromFirstName := none, text := none }) =
      .error () := by simp [extractChatId, msgUpdate]
  constructor <;> simp [handleWebhook, webhookBody, hex, initState]

/-- Claim C2, counterexample: an update with no recognized kind field (e.g.
a bare `poll` delivery) is classified `unknown` (variant `other`), is not
throttled, and its dispatch completes without raising — yet ZERO outbound
calls are attempted: with no extractable target id there is neither a reply
nor a fallback, so the non-throttled update is answered with silence. -/
theorem other_update_silent_counterexample :
    getUpdateType (otherUpdate 5) = "unknown" ∧
    (handleWebhook { api := fun _ => ApiOutcome.res true, now := 0 }
      (otherUpdate 5) (initState [])).1 = Except.ok () ∧
    (handleWebhook { api := fun _ => ApiOutcome.res true, now := 0 }
      (otherUpdate 5) (initState [])).2.calls = [] := by
  refine ⟨rfl, rfl, rfl⟩

/-- Claim C2 (amended): every non-throttled inbound update of variant
`message`, `edited_message` or `callback_query` (with the chat object
present where the handler path reads it — without it `extractChatId`
throws, see C1) or `inline_query` leads to at least one outbound call being
attempted, under any API behavior. Updates of other variants — including
unrecognized kinds (variant `other`), channel posts, and membership
updates — can complete with no outbound call, as the counterexample
shows, so the original "every non-throttled update" is too strong. -/
theorem dispatch_attempts_outbound_call :
    (∀ (env : Env) (c : CacheV) (n : Nat) (m : MessageObj) (chat : ChatObj),
      m.chat = some chat → (isThrottled c chat.id env.now).1 = false →
      (handleWebhook env (msgUpdate n m) (initState c)).1 = Except.ok () ∧
      (handleWebhook env (msgUpdate n m) (initState c)).2.calls ≠ []) ∧
    (∀ (env : Env) (c : CacheV) (n : Nat) (m : MessageObj) (chat : ChatObj),
      m.chat = some chat → (isThrottled c chat.id env.now).1 = false →
      (handleWebhook env (editedUpdate n m) (initState c)).1 = Except.ok () ∧
      (handleWebhook env (editedUpdate n m) (initState c)).2.calls ≠ []) ∧
    (∀ (env : Env) (c : CacheV) (n : Nat) (cb : CallbackObj) (mm : MessageObj)
      (chat : ChatObj), cb.message = some mm → mm.chat = some chat →
      (isThrottled c chat.id env.now).1 = false →
      (handleWebhook env (callbackUpdate n cb) (initState c)).1 = Except.ok () ∧
      (handleWebhook env (callbackUpdate n cb) (initState c)).2.calls ≠ []) ∧
    (∀ (env : Env) (c : CacheV) (n : Nat) (cb : CallbackObj),
      cb.message = none →
      (handleWebhook env (callbackUpdate n cb) (initState c)).1 = Except.ok () ∧
      (handleWebhook env (callbackUpdate n cb) (initState c)).2.calls ≠ []) ∧
    (∀ (env : Env) (c : CacheV) (n : Nat) (q : InlineQueryObj),
      (handleWebhook env (inlineUpdate n q) (initState c)).1 = Except.ok () ∧
      (handleWebhook env (inlineUpdate n q) (initState c)).2.calls ≠ []) := by
  refine ⟨?_, ?_, ?_, ?_, ?_⟩
  · intro env c n m chat hch hthr
    by_cases hz : chat.id = 0
    · obtain ⟨hok, hne⟩ := webhookBody_msg_zero_spec env c n m chat hch hz
      rw [handleWebhook_eq_of_body_ok env (msgUpdate n m) (initState c) hok]
      exact ⟨rfl, hne⟩
    · obtain ⟨t, b, s2, _, ht, hok, hcalls⟩ :=
        webhookBody_msg_spec env c n m chat hch hz hthr
      rw [handleWebhook_eq_of_body_ok env (msgUpdate n m) (initState c) hok]
      refine ⟨rfl, ?_⟩
      show (webhookBody env (msgUpdate n m) (initState c)).2.calls ≠ []
      rw [hcalls]
      cases b <;> simp [ht]
  · intro env c n m chat hch hthr
    by_cases hz : chat.id = 0
    · obtain ⟨hok, hne⟩ := webhookBody_edited_zero_spec env c n m chat hch hz
      rw [handleWebhook_eq_of_body_ok env (editedUpdate n m) (initState c) hok]
      exact ⟨rfl, hne⟩
    · obtain ⟨b, s2, _, ht, hok, hcalls⟩ :=
        webhookBody_edited_spec env c n m chat hch hz hthr
      rw [handleWebhook_eq_of_body_ok env (editedUpdate n m) (initState c) hok]
      refine ⟨rfl, ?_⟩
      show (webhookBody env (editedUpdate n m) (initState c)).2.calls ≠ []
      rw [hcalls]
      cases b <;> simp [ht]
  · intro env c n cb mm chat hm hch hthr
    by_cases hz : chat.id = 0
    · obtain ⟨hok, hne⟩ :=
        webhookBody_callback_zero_spec env c n cb mm chat hm hch hz
      rw [handleWebhook_eq_of_body_ok env (callbackUpdate n cb) (initState c) hok]
      exact ⟨rfl, hne⟩
    · obtain ⟨rest, b, s2, _, hr, hok, hcalls⟩ :=
        webhookBody_callback_spec env c n cb mm chat hm hch hz hthr
      rw [handleWebhook_eq_of_body_ok env (callbackUpdate n cb) (initState c) hok]
      refine ⟨rfl, ?_⟩
      show (webhookBody env (callbackUpdate n cb) (initState c)).2.calls ≠ []
      rw [hcalls]
      cases b <;> simp [hr]
  · intro env c n cb hm
    obtain ⟨hok, rest, hcalls⟩ := webhookBody_callback_nomsg_spec env c n cb hm
    rw [handleWebhook_eq_of_body_ok env (callbackUpdate n cb) (initState c) hok]
    refine ⟨rfl, ?_⟩
    show (webhookBody env (callbackUpdate n cb) (initState c)).2.calls ≠ []
    rw [hcalls]
    simp
  · intro env c n q
    obtain ⟨hok, hcalls⟩ := webhookBody_inline_spec env c n q
    rw [handleWebhook_eq_of_body_ok env (inlineUpdate n q) (initState c) hok]
    refine ⟨rfl, ?_⟩
    show (webhookBody env (inlineUpdate n q) (initState c)).2.calls ≠ []
    rw [hcalls]
    simp

/-- A sample well-formed message payload for chat 42. -/
def annMsg : MessageObj :=
  { chat := some ⟨42⟩, fromId := some 7, fromFirstName := some "Ann",
    text := some "hello" }

/-- An environment whose every API call returns success. -/
def okEnv : Env := { api := fun _ => ApiOutcome.res true, now := 0 }

/-- An environment whose every API call throws. -/
def throwEnv : Env := { api := fun _ => ApiOutcome.throwEx, now := 0 }

theorem dispatch_attempts_outbound_call_witness :
    (handleWebhook okEnv (msgUpdate 1 annMsg) (initState [])).1 =
      Except.ok () ∧
    (handleWebhook okEnv (msgUpdate 1 annMsg) (initState [])).2.calls ≠ [] :=
  dispatch_attempts_outbound_call.1 okEnv [] 1 annMsg ⟨42⟩ rfl (by decide)

theorem handleMessage_throwAll (env : Env)
    (hapi : ∀ x, env.api x = ApiOutcome.throwEx) (m : MessageObj)
    (chat : ChatObj) (hch : m.chat = some chat) (s : DState) :
    (handleMessage env m s).1 = false := by
  unfold handleMessage
  rw [hch]
  show (catchBool (messageSubdispatch env chat.id (m.text.getD "") m
    (stampLastSeen env m s))).1 = false
  generalize stampLastSeen env m s = s1
  generalize m.text.getD "" = text
  by_cases h1 : text.startsWith "/start"
  · simp [messageSubdispatch, h1, handleStartCommand, callApi_throw env hapi,
      catchBool]
  · by_cases h2 : text.startsWith "/help"
    · simp [messageSubdispatch, h1, h2, handleHelpCommand,
        callApi_throw env hapi, catchBool]
    · by_cases h3 : text.startsWith "/status"
      · simp [messageSubdispatch, h1, h2, h3, handleStatusCommand,
          callApi_throw env hapi, catchBool]
      · simp [messageSubdispatch, h1, h2, h3, handleTextMessage,
          callApi_throw env hapi, catchBool]

theorem handleEditedMessage_throwAll (env : Env)
    (hapi : ∀ x, env.api x = ApiOutcome.throwEx) (m : MessageObj)
    (chat : ChatObj) (hch : m.chat = some chat) (s : DState) :
    (handleEditedMessage env m s).1 = false := by
  unfold handleEditedMessage
  rw [hch]
  simp [callApi_throw env hapi, catchBool]

theorem handleCallbackQuery_throwAll (env : Env)
    (hapi : ∀ x, env.api x = ApiOutcome.throwEx) (cb : CallbackObj)
    (s : DState) :
    handleCallbackQuery env cb s =
      (false, { cache := s.cache, calls := s.calls ++
        [OutCall.answerCallbackQuery cb.id
          ("You clicked: " ++ cb.data.getD "undefined")] }) := by
  simp [handleCallbackQuery, callApi_throw env hapi, catchBool]

/-- A sample channel-post payload for chat 42 (no sender, no text). -/
def chan42 : MessageObj :=
  { chat := some ⟨42⟩, fromId := none, fromFirstName := none, text := none }

/-- Claim C8, counterexample: a well-formed channel post with a resolvable
target id (chat 42) is dispatched to the no-op channel-post handler: the
dispatch completes, reports the update handled, and attempts ZERO outbound
send/acknowledge calls — not exactly one. (The callback variant conversely
makes TWO calls, acknowledgment plus reply.) -/
theorem channel_post_zero_calls_counterexample :
    extractChatId (channelPostUpdate 2 chan42) = Except.ok (some 42) ∧
    (handleWebhook okEnv (channelPostUpdate 2 chan42) (initState [])).1 =
      Except.ok () ∧
    (handleWebhook okEnv (channelPostUpdate 2 chan42)
      (initState [])).2.calls = [] := by
  refine ⟨rfl, rfl, rfl⟩

/-- Claim C8 (amended): for a well-formed, non-throttled update of variant
`message`, `edited_message` or `callback_query` with a resolvable — i.e.
truthy, nonzero, since JS treats a chat id of 0 as absent in every guard —
target id, or of variant `inline_query`, at least one outbound call (or
fallback) is attempted even when the primary handler throws: with every API
call throwing, the dispatch still completes without raising and the trace
is exactly the failed primary attempt followed by one step-5 fallback (for
inline queries, the single answer attempt). The original "exactly one call"
fails in both directions: the no-op channel-post variant makes zero calls
(see the counterexample) and the callback variant makes two. -/
theorem dispatch_responds_when_handler_throws :
    (∀ (env : Env), (∀ x, env.api x = ApiOutcome.throwEx) →
      ∀ (c : CacheV) (n : Nat) (m : MessageObj) (chat : ChatObj),
      m.chat = some chat → chat.id ≠ 0 →
      (isThrottled c chat.id env.now).1 = false →
      (handleWebhook env (msgUpdate n m) (initState c)).1 = Except.ok () ∧
      ∃ t, (handleWebhook env (msgUpdate n m) (initState c)).2.calls =
        [OutCall.sendMessage chat.id t,
         OutCall.sendMessage chat.id UNSURE_MESSAGE]) ∧
    (∀ (env : Env), (∀ x, env.api x = ApiOutcome.throwEx) →
      ∀ (c : CacheV) (n : Nat) (m : MessageObj) (chat : ChatObj),
      m.chat = some chat → chat.id ≠ 0 →
      (isThrottled c chat.id env.now).1 = false →
      (handleWebhook env (editedUpdate n m) (initState c)).1 = Except.ok () ∧
      (handleWebhook env (editedUpdate n m) (initState c)).2.calls =
        [OutCall.sendMessage chat.id editedNotice,
         OutCall.sendMessage chat.id UNSURE_MESSAGE]) ∧
    (∀ (env : Env), (∀ x, env.api x = ApiOutcome.throwEx) →
      ∀ (c : CacheV) (n : Nat) (cb : CallbackObj) (mm : MessageObj)
      (chat : ChatObj), cb.message = some mm → mm.chat = some chat →
      chat.id ≠ 0 → (isThrottled c chat.id env.now).1 = false →
      (handleWebhook env (callbackUpdate n cb) (initState c)).1 =
        Except.ok () ∧
      (handleWebhook env (callbackUpdate n cb) (initState c)).2.calls =
        [OutCall.answerCallbackQuery cb.id
          ("You clicked: " ++ cb.data.getD "undefined"),
         OutCall.sendMessage chat.id UNSURE_MESSAGE]) ∧
    (∀ (env : Env), (∀ x, env.api x = ApiOutcome.throwEx) →
      ∀ (c : CacheV) (n : Nat) (q : InlineQueryObj),
      (handleWebhook env (inlineUpdate n q) (initState c)).1 = Except.ok () ∧
      (handleWebhook env (inlineUpdate n q) (initState c)).2.calls =
        [OutCall.answerInlineQuery q.id
          ("You searched for: " ++ q.query.getD "undefined")]) := by
  refine ⟨?_, ?_, ?_, ?_⟩
  · intro env hapi c n m chat hch hcid hthr
    obtain ⟨t, b, s2, hhm, ht, hok, hcalls⟩ :=
      webhookBody_msg_spec env c n m chat hch hcid hthr
    have hb := handleMessage_throwAll env hapi m chat hch
      { cache := (isThrottled (recordUpdate env (msgUpdate n m) c)
          chat.id env.now).2, calls := [] }
    rw [hhm] at hb
    simp only at hb
    subst hb
    rw [handleWebhook_eq_of_body_ok env (msgUpdate n m) (initState c) hok]
    refine ⟨rfl, t, ?_⟩
    show (webhookBody env (msgUpdate n m) (initState c)).2.calls = _
    rw [hcalls]
    simp [ht]
  · intro env hapi c n m chat hch hcid hthr
    obtain ⟨b, s2, hhm, ht, hok, hcalls⟩ :=
      webhookBody_edited_spec env c n m chat hch hcid hthr
    have hb := handleEditedMessage_throwAll env hapi m chat hch
      { cache := (isThrottled (recordUpdate env (editedUpdate n m) c)
          chat.id env.now).2, calls := [] }
    rw [hhm] at hb
    simp only at hb
    subst hb
    rw [handleWebhook_eq_of_body_ok env (editedUpdate n m) (initState c) hok]
    refine ⟨rfl, ?_⟩
    show (webhookBody env (editedUpdate n m) (initState c)).2.calls = _
    rw [hcalls]
    simp [ht]
  · intro env hapi c n cb mm chat hm hch hcid hthr
    obtain ⟨rest, b, s2, hhc, hr, hok, hcalls⟩ :=
      webhookBody_callback_spec env c n cb mm chat hm hch hcid hthr
    have hT := handleCallbackQuery_throwAll env hapi cb
      { cache := (isThrottled (recordUpdate env (callbackUpdate n cb) c)
          chat.id env.now).2, calls := [] }
    rw [hhc] at hT
    have hb : b = false := by
      have := congrArg Prod.fst hT
      simpa using this
    have hs2 : s2.calls = [OutCall.answerCallbackQuery cb.id
        ("You clicked: " ++ cb.data.getD "undefined")] := by
      have := congrArg Prod.snd hT
      simp only at this
      rw [this]
      simp
    subst hb
    rw [handleWebhook_eq_of_body_ok env (callbackUpdate n cb) (initState c) hok]
    refine ⟨rfl, ?_⟩
    show (webhookBody env (callbackUpdate n cb) (initState c)).2.calls = _
    rw [hcalls]
    simp [hs2]
  · intro env hapi c n q
    obtain ⟨hok, hcalls⟩ := webhookBody_inline_spec env c n q
    rw [handleWebhook_eq_of_body_ok env (inlineUpdate n q) (initState c) hok]
    exact ⟨rfl, hcalls⟩

theorem dispatch_responds_when_handler_throws_witness :
    (handleWebhook throwEnv (msgUpdate 1 annMsg) (initState [])).1 =
      Except.ok () ∧
    ∃ t, (handleWebhook throwEnv (msgUpdate 1 annMsg) (initState [])).2.calls =
      [OutCall.sendMessage 42 t, OutCall.sendMessage 42 UNSURE_MESSAGE] :=
  dispatch_responds_when_handler_throws.1 throwEnv (fun _ => rfl) [] 1 annMsg
    ⟨42⟩ rfl (by decide) (by decide)
